import Mathlib

set_option maxHeartbeats 1000000
set_option autoImplicit false
set_option linter.unusedVariables false

/-!
Shallow embedding of the two SoftLayer lifecycle modules of this repository,
`cloud/softlayer/sl_vguests.py` (namespace `VG`) and
`cloud/softlayer/sl_hardware.py` (namespace `HW`): the finite-state
transition table `FINITE_STATE`, the action handlers, the reconciliation
driver `main`, and the fact projectors `get_instance` / `get_fact`.

The remote provider (SoftLayer client, `VSManager` / `HardwareManager`,
`Virtual_Disk_Image` service) is modelled as environment data: the records a
query returns, the detail record per id, the disk-image record per disk id,
and the boolean a cancellation call returns.  The query's filter arguments
(hostname/domain/datacenter/tags) only select which records the provider
returns, so we quantify over the returned record lists directly.  Each
provider round-trip is logged as a `Call`; `fail_json` aborts are modelled as
an `Except` error carrying a structured `Failure` value (Python raises
`KeyError`/`IndexError`/`TypeError` objects which the generic `except` clause
turns into a `fail_json`; the `Failure` value records which exception and
which argument).
-/

def charsStartWith : List Char → List Char → Bool
  | _, [] => true
  | [], _ => false
  | c :: cs, p :: ps => c == p && charsStartWith cs ps

def charsContain : List Char → List Char → Bool
  | [], pat => charsStartWith [] pat
  | c :: rest, pat => charsStartWith (c :: rest) pat || charsContain rest pat

/-- Python's substring test `pat in s`. -/
def strContains (s pat : String) : Bool := charsContain s.data pat.data

/-- Python dict read `d[k]` (first binding wins; keys are unique by
construction of `dictSet`). -/
def lookupKey {α : Type} : List (String × α) → String → Option α
  | [], _ => none
  | (k, v) :: rest, s => if s = k then some v else lookupKey rest s

/-- Python membership test `k in d.keys()`. -/
def hasKey {α : Type} (d : List (String × α)) (k : String) : Bool :=
  (lookupKey d k).isSome

/-- Python dict write `d[k] = v`: overwrite in place when the key exists,
append otherwise (insertion order preserved, as for a Python dict). -/
def dictSet {α : Type} : List (String × α) → String → α → List (String × α)
  | [], k, v => [(k, v)]
  | (k', v') :: rest, k, v =>
    if k = k' then (k', v) :: rest else (k', v') :: dictSet rest k v

/-- Python `del d[k]` (the key occurs at most once). -/
def dictDel {α : Type} : List (String × α) → String → List (String × α)
  | [], _ => []
  | (k', v') :: rest, k => if k = k' then rest else (k', v') :: dictDel rest k

def splitOnceChars : List Char → Option (List Char × List Char)
  | [] => none
  | c :: rest =>
    if c = '.' then some ([], rest)
    else
      match splitOnceChars rest with
      | none => none
      | some (pre, post) => some (c :: pre, post)

/-- Python `name.split('.', 1)`: the part before the first dot, and the rest
(`none` when the string has no dot, in which case Python's `[1]` access
raises `IndexError`). -/
def splitOnce (s : String) : String × Option String :=
  match splitOnceChars s.data with
  | none => (s, none)
  | some (pre, post) => (String.mk pre, some (String.mk post))

/-- Values stored in result dictionaries, fact records and flavor specs. -/
inductive FactVal : Type
  | str (s : String)
  | nat (n : Nat)
  | int (n : Int)
  | bool (b : Bool)
  | strs (l : List String)
  | ints (l : List Int)
  | nats (l : List Nat)
  deriving DecidableEq, Repr

/-- The action handlers of both modules (bound methods in the source). -/
inductive Handler : Type
  | create | destroy | start | stop | suspend | resume | nop
  | list | info | facts
  deriving DecidableEq, Repr

/-- A `fail_json` abort, as produced directly (`failJson`) or through the
generic `except` clause from a raised Python exception. -/
inductive Failure : Type
  | failJson (msg : String)
  | keyError (key : String)
  | indexError
  | typeError
  deriving DecidableEq, Repr

/-- One provider round-trip. -/
inductive Call : Type
  | query
  | getDetail (id : Nat)
  | verifyCreate (spec : List (String × FactVal))
  | commitCreate (spec : List (String × FactVal))
  | waitReady
  | cancel (id : Nat) (immediate : Bool)
  | editTags
  deriving DecidableEq, Repr

/-- A call that mutates provider state (create commit, cancel, tag edit);
queries, detail fetches, dry-run verifies and ready-waits are read-only. -/
def Call.isMutating : Call → Bool
  | .commitCreate _ => true
  | .cancel _ _ => true
  | .editTags => true
  | _ => false

/-- The fields of an item the driver's dispatch loop reads
(`item['state']`, `item['name']`, `item['id']`). -/
structure DispatchItem where
  state : String
  name : Option String
  id : Nat
  deriving DecidableEq, Repr

/-- The `_NONE_` row of `FINITE_STATE`: the read-only operations. -/
def noneRow : List (String × Handler) :=
  [("list", Handler.list), ("info", Handler.info), ("facts", Handler.facts)]

/-- The transition table, identical in both modules. -/
def FINITE_STATE : List (String × List (String × Handler)) :=
  [ ("Undefined", [("running", Handler.create)]),
    ("Running",   [("paused", Handler.suspend), ("halted", Handler.stop),
                   ("destroy", Handler.destroy), ("running", Handler.nop)]),
    ("Halted",    [("running", Handler.start), ("destroy", Handler.destroy),
                   ("halted", Handler.nop)]),
    ("Paused",    [("running", Handler.resume), ("destroy", Handler.destroy),
                   ("paused", Handler.nop)]),
    ("_NONE_",    noneRow) ]

/-- `FINITE_STATE[item['state']][state]`: a missing key at either level
raises `KeyError` with the missing key as its argument. -/
def tableLookup (s r : String) : Except Failure Handler :=
  match lookupKey FINITE_STATE s with
  | none => .error (.keyError s)
  | some row =>
    match lookupKey row r with
    | none => .error (.keyError r)
    | some h => .ok h

/-- The driver's placeholder synthesis: on zero matches a single item
`{'state':'Undefined', 'name':name, 'id':0}` replaces the empty list. -/
def dispatchItems (items : List DispatchItem) (name : Option String) :
    List DispatchItem :=
  if items.isEmpty then [⟨"Undefined", name, 0⟩] else items

/-- A `networkVlans` entry. -/
structure Vlan where
  networkSpace : String
  vlanNumber : Nat
  deriving DecidableEq, Repr

/-- The `networkVlans` loop, identical in both modules' `get_fact`:
`PRIVATE` space sets `private_vlan`, `PUBLIC` space sets `public_vlan`. -/
def vlanFold (vl : List Vlan) (info : List (String × FactVal)) :
    List (String × FactVal) :=
  vl.foldl (fun acc vlan =>
    let acc :=
      if vlan.networkSpace = "PRIVATE" then
        dictSet acc "private_vlan" (.nat vlan.vlanNumber)
      else acc
    if vlan.networkSpace = "PUBLIC" then
      dictSet acc "public_vlan" (.nat vlan.vlanNumber)
    else acc) info

/-- The billing-mode override at the head of both `create` handlers:
`monthly` forces `hourly := False`, then `hourly` forces `hourly := True`. -/
def billingAdjust (hourly monthly : Bool) (bms : List (String × FactVal)) :
    List (String × FactVal) :=
  let bms := if monthly then dictSet bms "hourly" (.bool false) else bms
  if hourly then dictSet bms "hourly" (.bool true) else bms

namespace VG

/-- A `Virtual_Disk_Image` record (`getObject` fields plus the
`getLocalDiskFlag` result for the same disk-image id). -/
structure DiskImage where
  name : String
  units : String
  capacity : Int
  localFlag : Bool
  deriving DecidableEq, Repr

/-- A record returned by `vs.list_instances` under `MASK_LIST`. -/
structure RawList where
  id : Nat
  fullyQualifiedDomainName : String
  datacenterName : String
  powerStateName : String
  statusName : String
  primaryBackendIpAddress : Option String
  primaryIpAddress : Option String
  deriving DecidableEq, Repr

structure NetComp where
  status : String
  maxSpeed : Nat
  deriving DecidableEq, Repr

/-- A full record returned by `vs.get_instance`, with the fields
`get_fact` reads.  `blockDevices` keeps each device's `diskImageId`. -/
structure RawVG where
  id : Nat
  fullyQualifiedDomainName : String
  hostname : String
  domain : String
  datacenterName : String
  maxCpu : Nat
  maxMemory : Nat
  powerStateName : String
  statusName : String
  osReferenceCode : String
  dedicatedAccountHostOnlyFlag : Bool
  hourlyBillingFlag : Bool
  privateNetworkOnlyFlag : Bool
  tagNames : List String
  primaryBackendIpAddress : Option String
  primaryIpAddress : Option String
  blockDevices : List Nat
  networkVlans : List Vlan
  networkComponents : List NetComp
  userData : List String
  postInstallScriptUri : Option String
  deriving DecidableEq, Repr

/-- The summary dictionary built by `vGuests.get_instance`. -/
structure Item where
  id : Nat
  name : String
  datacenter : String
  state : String
  status : String
  address : String
  deriving DecidableEq, Repr

def get_instance (inst : RawList) : Item :=
  { id := inst.id,
    name := inst.fullyQualifiedDomainName,
    datacenter := inst.datacenterName,
    state := inst.powerStateName,
    status := inst.statusName,
    address :=
      match inst.primaryBackendIpAddress with
      | some a => a
      | none =>
        match inst.primaryIpAddress with
        | some a => a
        | none => "undefined" }

/-- One iteration of the `blockDevices` loop in `vGuests.get_fact`:
skip `SWAP`-named disks, otherwise scale the capacity by the unit factor
and record whether any disk is local. -/
def diskStep (vdi : Nat → DiskImage) (acc : List Int × Bool) (bid : Nat) :
    List Int × Bool :=
  let disk := vdi bid
  if strContains disk.name "SWAP" then acc
  else
    let unit : Int :=
      if strContains disk.units "GB" then 1
      else if strContains disk.units "TB" then 1000
      else 0
    let localDisk := if disk.localFlag then true else acc.2
    (acc.1 ++ [disk.capacity * unit], localDisk)

/-- The `blockDevices` loop: accumulated `disks` list and `local_disk` flag. -/
def diskLoop (vdi : Nat → DiskImage) (bds : List Nat) : List Int × Bool :=
  bds.foldl (diskStep vdi) ([], false)

/-- The `networkComponents` loop of `vGuests.get_fact`: the peak `maxSpeed`
over components whose status contains `ACTIVE`. -/
def nicSpeed (comps : List NetComp) : Nat :=
  comps.foldl (fun nic comp =>
    if strContains comp.status "ACTIVE" then
      if nic < comp.maxSpeed then comp.maxSpeed else nic
    else nic) 0

/-- The fact dictionary built by `vGuests.get_fact`. -/
def get_fact (vdi : Nat → DiskImage) (inst : RawVG) : List (String × FactVal) :=
  let info : List (String × FactVal) :=
    [ ("id", .nat inst.id),
      ("name", .str inst.fullyQualifiedDomainName),
      ("hostname", .str inst.hostname),
      ("domain", .str inst.domain),
      ("datacenter", .str inst.datacenterName),
      ("cpus", .nat inst.maxCpu),
      ("memory", .nat inst.maxMemory),
      ("state", .str inst.powerStateName),
      ("status", .str inst.statusName),
      ("os_code", .str inst.osReferenceCode),
      ("dedicated", .bool inst.dedicatedAccountHostOnlyFlag),
      ("hourly", .bool inst.hourlyBillingFlag),
      ("private", .bool inst.privateNetworkOnlyFlag),
      ("tags", .strs inst.tagNames) ]
  let info :=
    match inst.primaryBackendIpAddress with
    | some a => dictSet info "address" (.str a)
    | none =>
      match inst.primaryIpAddress with
      | some a => dictSet info "address" (.str a)
      | none => info
  let info :=
    match inst.primaryBackendIpAddress with
    | some a => dictSet info "privateAddress" (.str a)
    | none => info
  let info :=
    match inst.primaryIpAddress with
    | some a => dictSet info "publicAddress" (.str a)
    | none => info
  let info :=
    if inst.blockDevices.isEmpty then info
    else
      let dl := diskLoop vdi inst.blockDevices
      dictSet (dictSet info "disks" (.ints dl.1)) "local_disk" (.bool dl.2)
  let info := vlanFold inst.networkVlans info
  let info :=
    if inst.networkComponents.isEmpty then info
    else dictSet info "nic_speed" (.nat (nicSpeed inst.networkComponents))
  let info :=
    match inst.userData with
    | [] => info
    | u :: _ => dictSet info "userData" (.str u)
  match inst.postInstallScriptUri with
  | some uri => dictSet info "post_uri" (.str uri)
  | none => info

/-- An element of `results['instances']`: `list` and the state-changing
handlers append summary dictionaries, `info` appends raw detail records. -/
inductive Entry : Type
  | summary (it : Item)
  | raw (r : RawVG)
  deriving DecidableEq, Repr

/-- The shared `results` accumulator.  `instances = none` models the key
deleted (`del results['instances']` in `facts`); `ansible_facts = none`
models the key never set. -/
structure Results where
  changed : Bool
  state : String
  instances : Option (List Entry)
  ansible_facts : Option (List (FactVal × List (String × FactVal)))
  msg : Option String
  deriving DecidableEq, Repr

/-- The provider environment of one reconciliation pass: what each remote
call returns (queries are restartable and re-issue the same records). -/
structure Env where
  listRaw : List RawList
  factsIds : List Nat
  detail : Nat → RawVG
  vdi : Nat → DiskImage
  flavor : List (String × FactVal)
  hourly : Bool
  monthly : Bool
  cancelOk : Bool
  sshkey : List Nat

/-- `vGuests.state`: re-query and summarize every match. -/
def stateQuery (env : Env) : List Item := env.listRaw.map get_instance

def nop (env : Env) (name : Option String) (id : Nat) (res : Results) :
    Except Failure Results × List Call :=
  match res.instances with
  | none => (.error (.keyError "instances"), [.query])
  | some l =>
    (.ok { res with instances := some (l ++ (stateQuery env).map Entry.summary) },
     [.query])

def start (env : Env) (name : Option String) (id : Nat) (res : Results) :
    Except Failure Results × List Call :=
  nop env name id res

def stop (env : Env) (name : Option String) (id : Nat) (res : Results) :
    Except Failure Results × List Call :=
  nop env name id res

def suspend (env : Env) (name : Option String) (id : Nat) (res : Results) :
    Except Failure Results × List Call :=
  nop env name id res

def resume (env : Env) (name : Option String) (id : Nat) (res : Results) :
    Except Failure Results × List Call :=
  nop env name id res

def destroy (env : Env) (name : Option String) (id : Nat) (res : Results) :
    Except Failure Results × List Call :=
  let res := if env.cancelOk then { res with changed := true } else res
  match res.instances with
  | none => (.error (.keyError "instances"), [.cancel id false, .waitReady, .query])
  | some l =>
    (.ok { res with instances := some (l ++ (stateQuery env).map Entry.summary) },
     [.cancel id false, .waitReady, .query])

/-- The spec passed by `vGuests.create` to `verify_create_instance` and
`create_instance`: the flavor with the billing override, `hostname`,
`domain` and `ssh_keys` — no key of the caller's flavor is renamed. -/
def createSpec (env : Env) (host dom : String) : List (String × FactVal) :=
  let vsi := billingAdjust env.hourly env.monthly env.flavor
  let vsi := dictSet vsi "hostname" (.str host)
  let vsi := dictSet vsi "domain" (.str dom)
  dictSet vsi "ssh_keys" (.nats env.sshkey)

def create (env : Env) (name : Option String) (id : Nat) (res : Results) :
    Except Failure Results × List Call :=
  match name with
  | none => (.error (.failJson "vguest name need to be defined."), [])
  | some n =>
    match (splitOnce n).2 with
    | none => (.error .indexError, [])
    | some dom =>
      let vsi := createSpec env (splitOnce n).1 dom
      (.ok { res with changed := true,
                      instances := some ((stateQuery env).map Entry.summary) },
       [.verifyCreate vsi, .commitCreate vsi, .waitReady, .query])

def list (env : Env) (name : Option String) (id : Nat) (res : Results) :
    Except Failure Results × List Call :=
  let items := (stateQuery env).map Entry.summary
  let res := if items.isEmpty then { res with msg := some "vguest not found" } else res
  (.ok { res with instances := some items }, [.query])

def info (env : Env) (name : Option String) (id : Nat) (res : Results) :
    Except Failure Results × List Call :=
  let items := stateQuery env
  let details := items.map (fun it => env.detail it.id)
  let res := if details.isEmpty then { res with msg := some "vguest not found" } else res
  (.ok { res with instances := some (details.map Entry.raw) },
   .query :: items.map (fun it => Call.getDetail it.id))

/-- The duplicate-detecting assembly loop of `vGuests.facts`:
`ansible_facts[name] = fact` unless the name is already bound. -/
def buildFacts : List (List (String × FactVal)) →
    List (FactVal × List (String × FactVal)) →
    Except Failure (List (FactVal × List (String × FactVal)))
  | [], acc => .ok acc
  | f :: rest, acc =>
    match lookupKey f "name" with
    | none => .error (.keyError "name")
    | some n =>
      if acc.any (fun p => decide (p.1 = n)) then
        .error (.failJson "duplicated vguests name")
      else buildFacts rest (acc ++ [(n, f)])

def facts (env : Env) (name : Option String) (id : Nat) (res : Results) :
    Except Failure Results × List Call :=
  match res.instances with
  | none => (.error (.keyError "instances"), [])
  | some _ =>
    let res := { res with instances := none }
    let calls : List Call := .query :: env.factsIds.map (fun i => Call.getDetail i)
    let fs := env.factsIds.map (fun i => get_fact env.vdi (env.detail i))
    if fs.isEmpty then (.ok { res with msg := some "vguest not found" }, calls)
    else
      match buildFacts fs [] with
      | .error f => (.error f, calls)
      | .ok m => (.ok { res with ansible_facts := some m }, calls)

def runHandler (env : Env) (h : Handler) (name : Option String) (id : Nat)
    (res : Results) : Except Failure Results × List Call :=
  match h with
  | .create => create env name id res
  | .destroy => destroy env name id res
  | .start => start env name id res
  | .stop => stop env name id res
  | .suspend => suspend env name id res
  | .resume => resume env name id res
  | .nop => nop env name id res
  | .list => list env name id res
  | .info => info env name id res
  | .facts => facts env name id res

/-- The dispatch loop of `vGuests.main`: per item, look the handler up in
`FINITE_STATE` and run it; a lookup or handler failure aborts the pass.
Also returns the provider calls issued and the trace of handlers invoked. -/
def runItems (env : Env) (req : String) :
    List DispatchItem → Results →
    Except Failure Results × List Call × List Handler
  | [], res => (.ok res, [], [])
  | it :: rest, res =>
    match tableLookup it.state req with
    | .error f => (.error f, [], [])
    | .ok h =>
      match runHandler env h it.name it.id res with
      | (.error f, cs) => (.error f, cs, [h])
      | (.ok res', cs) =>
        let out := runItems env req rest res'
        (out.1, cs ++ out.2.1, h :: out.2.2)

/-- `results = { 'changed':False, 'state':state, 'instances':[] }`. -/
def initResults (req : String) : Results :=
  { changed := false, state := req, instances := some [],
    ansible_facts := none, msg := none }

def toDispatch (it : Item) : DispatchItem := ⟨it.state, some it.name, it.id⟩

/-- One reconciliation pass (`vGuests.main` after the provider handles are
built): read-only requests dispatch once through the `_NONE_` row; otherwise
the observed items (or the synthesized `Undefined` placeholder) are driven
through the transition table. -/
def reconcile (env : Env) (req : String) (name : Option String) :
    Except Failure Results × List Call × List Handler :=
  let res := initResults req
  match lookupKey noneRow req with
  | some h =>
    let out := runHandler env h name 0 res
    (out.1, out.2, [h])
  | none =>
    let items := dispatchItems ((stateQuery env).map toDispatch) name
    let out := runItems env req items res
    (out.1, .query :: out.2.1, out.2.2)

end VG

namespace HW

structure Transaction where
  statusName : String
  friendlyName : Option String
  deriving DecidableEq, Repr

structure NetComp where
  primarySubnet : Bool
  status : String
  maxSpeed : Nat
  deriving DecidableEq, Repr

/-- A record returned by `hw.list_hardware`. -/
structure RawList where
  id : Nat
  fullyQualifiedDomainName : String
  datacenterName : String
  hardwareStatusId : Nat
  primaryBackendIpAddress : Option String
  primaryIpAddress : Option String
  activeTransaction : Option Transaction
  deriving DecidableEq, Repr

/-- A full record returned by `hw.get_hardware`, with the fields
`vHardware.get_fact` reads. -/
structure RawHW where
  id : Nat
  fullyQualifiedDomainName : String
  hostname : String
  domain : String
  datacenterName : String
  processorPhysicalCoreAmount : Nat
  memoryCapacity : Nat
  osReferenceCode : String
  hourlyBillingFlag : Bool
  privateNetworkOnlyFlag : Bool
  tagNames : List String
  primaryBackendIpAddress : Option String
  primaryIpAddress : Option String
  networkManagementIpAddress : Option String
  networkVlans : List Vlan
  networkComponents : List NetComp
  userData : List String
  postInstallScriptUri : Option String
  deriving DecidableEq, Repr

/-- The summary dictionary built by `vHardware.get_instance`: bare metal
reports no power state, so `state`/`status` are hard-coded. -/
structure Item where
  id : Nat
  name : String
  datacenter : String
  state : String
  status : String
  stHardware : Nat
  address : String
  stTransaction : Option String
  deriving DecidableEq, Repr

def get_instance (inst : RawList) : Item :=
  { id := inst.id,
    name := inst.fullyQualifiedDomainName,
    datacenter := inst.datacenterName,
    state := "Running",
    status := "Active",
    stHardware := inst.hardwareStatusId,
    address :=
      match inst.primaryBackendIpAddress with
      | some a => a
      | none =>
        match inst.primaryIpAddress with
        | some a => a
        | none => "undefined",
    stTransaction :=
      match inst.activeTransaction with
      | none => none
      | some t =>
        match t.friendlyName with
        | some f => some (t.statusName ++ " - " ++ f)
        | none => some t.statusName }

/-- The `networkComponents` loop of `vHardware.get_fact`: only components
bound to a primary subnet are considered; the running peak is written into
`nic_speed` on each such iteration. -/
def nicFold (comps : List NetComp) (acc : Nat × List (String × FactVal)) :
    Nat × List (String × FactVal) :=
  comps.foldl (fun acc comp =>
    if comp.primarySubnet then
      let nic :=
        if strContains comp.status "ACTIVE" then
          if acc.1 < comp.maxSpeed then comp.maxSpeed else acc.1
        else acc.1
      (nic, dictSet acc.2 "nic_speed" (.nat nic))
    else acc) acc

/-- The fact dictionary built by `vHardware.get_fact`.  Note the initial
literal already binds `address` to `"undefined"`. -/
def get_fact (inst : RawHW) : List (String × FactVal) :=
  let info : List (String × FactVal) :=
    [ ("id", .nat inst.id),
      ("name", .str inst.fullyQualifiedDomainName),
      ("hostname", .str inst.hostname),
      ("domain", .str inst.domain),
      ("datacenter", .str inst.datacenterName),
      ("state", .str "Running"),
      ("status", .str "Active"),
      ("cpus", .nat inst.processorPhysicalCoreAmount),
      ("memory", .nat inst.memoryCapacity),
      ("os_code", .str inst.osReferenceCode),
      ("hourly", .bool inst.hourlyBillingFlag),
      ("private", .bool inst.privateNetworkOnlyFlag),
      ("tags", .strs inst.tagNames),
      ("address", .str "undefined") ]
  let info :=
    match inst.primaryBackendIpAddress with
    | some a => dictSet info "address" (.str a)
    | none =>
      match inst.primaryIpAddress with
      | some a => dictSet info "address" (.str a)
      | none => info
  let info :=
    match inst.networkManagementIpAddress with
    | some a => dictSet info "managementAddress" (.str a)
    | none => info
  let info :=
    match inst.primaryBackendIpAddress with
    | some a => dictSet info "privateAddress" (.str a)
    | none => info
  let info :=
    match inst.primaryIpAddress with
    | some a => dictSet info "publicAddress" (.str a)
    | none => info
  let info := vlanFold inst.networkVlans info
  let info :=
    if inst.networkComponents.isEmpty then info
    else (nicFold inst.networkComponents (0, info)).2
  let info :=
    match inst.userData with
    | [] => info
    | u :: _ => dictSet info "userData" (.str u)
  match inst.postInstallScriptUri with
  | some uri => dictSet info "post_uri" (.str uri)
  | none => info

/-- An element of `results['instances']`. -/
inductive Entry : Type
  | summary (it : Item)
  | raw (r : RawHW)
  deriving DecidableEq, Repr

/-- The shared `results` accumulator (the hardware module also stores the
debug keys `debug_bms` and `debug_inst` during `create`). -/
structure Results where
  changed : Bool
  state : String
  instances : Option (List Entry)
  ansible_facts : Option (List (FactVal × List (String × FactVal)))
  msg : Option String
  debug_bms : Option (List (String × FactVal))
  debug_inst : Bool
  deriving DecidableEq, Repr

structure Env where
  listRaw : List RawList
  factsIds : List Nat
  detail : Nat → RawHW
  flavor : List (String × FactVal)
  hourly : Bool
  monthly : Bool
  cancelOk : Bool
  sshkey : List Nat

/-- `vHardware.state`: re-query and summarize every match. -/
def stateQuery (env : Env) : List Item := env.listRaw.map get_instance

def nop (env : Env) (name : Option String) (id : Nat) (res : Results) :
    Except Failure Results × List Call :=
  match res.instances with
  | none => (.error (.keyError "instances"), [.query])
  | some l =>
    (.ok { res with instances := some (l ++ (stateQuery env).map Entry.summary) },
     [.query])

def start (env : Env) (name : Option String) (id : Nat) (res : Results) :
    Except Failure Results × List Call :=
  nop env name id res

def stop (env : Env) (name : Option String) (id : Nat) (res : Results) :
    Except Failure Results × List Call :=
  nop env name id res

def suspend (env : Env) (name : Option String) (id : Nat) (res : Results) :
    Except Failure Results × List Call :=
  nop env name id res

def resume (env : Env) (name : Option String) (id : Nat) (res : Results) :
    Except Failure Results × List Call :=
  nop env name id res

def destroy (env : Env) (name : Option String) (id : Nat) (res : Results) :
    Except Failure Results × List Call :=
  let res := if env.cancelOk then { res with changed := true } else res
  match res.instances with
  | none => (.error (.keyError "instances"), [.cancel id true, .query])
  | some l =>
    (.ok { res with instances := some (l ++ (stateQuery env).map Entry.summary) },
     [.cancel id true, .query])

/-- The spec and deferred tags built by `vHardware.create` before
`verify_order`/`place_order`: billing override, the `tags` key extracted
and deleted, `hostname`/`domain`/`ssh_keys` added, then the transcoding
renames `os_code`→`os`, `datacenter`→`location`, `private`→`no_public`
(reading a missing key raises `KeyError`). -/
def createSpec (env : Env) (host dom : String) :
    Except Failure (List (String × FactVal) × Option FactVal) :=
  let bms := billingAdjust env.hourly env.monthly env.flavor
  let bmsTags := lookupKey bms "tags"
  let bms := if (lookupKey bms "tags").isSome then dictDel bms "tags" else bms
  let bms := dictSet bms "hostname" (.str host)
  let bms := dictSet bms "domain" (.str dom)
  let bms := dictSet bms "ssh_keys" (.nats env.sshkey)
  match lookupKey bms "os_code" with
  | none => .error (.keyError "os_code")
  | some osv =>
    let bms := dictDel (dictSet bms "os" osv) "os_code"
    match lookupKey bms "datacenter" with
    | none => .error (.keyError "datacenter")
    | some dcv =>
      let bms := dictDel (dictSet bms "location" dcv) "datacenter"
      match lookupKey bms "private" with
      | none => .error (.keyError "private")
      | some pv => .ok (dictDel (dictSet bms "no_public" pv) "private", bmsTags)

def create (env : Env) (name : Option String) (id : Nat) (res : Results) :
    Except Failure Results × List Call :=
  match name with
  | none => (.error (.failJson "vguest name need to be defined."), [])
  | some n =>
    match (splitOnce n).2 with
    | none => (.error .indexError, [])
    | some dom =>
      match createSpec env (splitOnce n).1 dom with
      | .error f => (.error f, [])
      | .ok (bms, bmsTags) =>
        let res := { res with debug_bms := some bms }
        let res := { res with debug_inst := true }
        let stateInst := (stateQuery env).map Entry.summary
        let calls := [Call.verifyCreate bms, Call.commitCreate bms, Call.query]
        match bmsTags with
        | some _ => (.error .typeError, calls)
        | none =>
          (.ok { res with changed := true, instances := some stateInst }, calls)

def list (env : Env) (name : Option String) (id : Nat) (res : Results) :
    Except Failure Results × List Call :=
  let items := (stateQuery env).map Entry.summary
  let res := if items.isEmpty then { res with msg := some "vHardware not found" } else res
  (.ok { res with instances := some items }, [.query])

def info (env : Env) (name : Option String) (id : Nat) (res : Results) :
    Except Failure Results × List Call :=
  let items := stateQuery env
  let details := items.map (fun it => env.detail it.id)
  let res := if details.isEmpty then { res with msg := some "vHardware not found" } else res
  (.ok { res with instances := some (details.map Entry.raw) },
   .query :: items.map (fun it => Call.getDetail it.id))

/-- The duplicate-detecting assembly loop of `vHardware.facts`. -/
def buildFacts : List (List (String × FactVal)) →
    List (FactVal × List (String × FactVal)) →
    Except Failure (List (FactVal × List (String × FactVal)))
  | [], acc => .ok acc
  | f :: rest, acc =>
    match lookupKey f "name" with
    | none => .error (.keyError "name")
    | some n =>
      if acc.any (fun p => decide (p.1 = n)) then
        .error (.failJson "duplicated vHardware name")
      else buildFacts rest (acc ++ [(n, f)])

def facts (env : Env) (name : Option String) (id : Nat) (res : Results) :
    Except Failure Results × List Call :=
  match res.instances with
  | none => (.error (.keyError "instances"), [])
  | some _ =>
    let res := { res with instances := none }
    let calls : List Call := .query :: env.factsIds.map (fun i => Call.getDetail i)
    let fs := env.factsIds.map (fun i => get_fact (env.detail i))
    if fs.isEmpty then (.ok { res with msg := some "vHardware not found" }, calls)
    else
      match buildFacts fs [] with
      | .error f => (.error f, calls)
      | .ok m => (.ok { res with ansible_facts := some m }, calls)

def runHandler (env : Env) (h : Handler) (name : Option String) (id : Nat)
    (res : Results) : Except Failure Results × List Call :=
  match h with
  | .create => create env name id res
  | .destroy => destroy env name id res
  | .start => start env name id res
  | .stop => stop env name id res
  | .suspend => suspend env name id res
  | .resume => resume env name id res
  | .nop => nop env name id res
  | .list => list env name id res
  | .info => info env name id res
  | .facts => facts env name id res

/-- The dispatch loop of `vHardware.main`. -/
def runItems (env : Env) (req : String) :
    List DispatchItem → Results →
    Except Failure Results × List Call × List Handler
  | [], res => (.ok res, [], [])
  | it :: rest, res =>
    match tableLookup it.state req with
    | .error f => (.error f, [], [])
    | .ok h =>
      match runHandler env h it.name it.id res with
      | (.error f, cs) => (.error f, cs, [h])
      | (.ok res', cs) =>
        let out := runItems env req rest res'
        (out.1, cs ++ out.2.1, h :: out.2.2)

def initResults (req : String) : Results :=
  { changed := false, state := req, instances := some [],
    ansible_facts := none, msg := none, debug_bms := none, debug_inst := false }

def toDispatch (it : Item) : DispatchItem := ⟨it.state, some it.name, it.id⟩

/-- One reconciliation pass (`vHardware.main`). -/
def reconcile (env : Env) (req : String) (name : Option String) :
    Except Failure Results × List Call × List Handler :=
  let res := initResults req
  match lookupKey noneRow req with
  | some h =>
    let out := runHandler env h name 0 res
    (out.1, out.2, [h])
  | none =>
    let items := dispatchItems ((stateQuery env).map toDispatch) name
    let out := runItems env req items res
    (out.1, .query :: out.2.1, out.2.2)

end HW

/-! ### Spec-side tables and auxiliary predicates -/

/-- Whether a failure value names the given state string anywhere in its
payload (the `KeyError` argument or the `fail_json` message). -/
def Failure.identifies : Failure → String → Bool
  | .failJson m, s => strContains m s
  | .keyError k, s => strContains k s
  | _, _ => false

/-- Modelled from the spec: the defined `(observed, requested) → handler`
cells of the documented transition table, to be compared with the
source-derived `FINITE_STATE`/`tableLookup`. -/
def specDefinedCells : List (String × String × Handler) :=
  [ ("Undefined", "running", Handler.create),
    ("Running", "running", Handler.nop),
    ("Halted", "halted", Handler.nop),
    ("Paused", "paused", Handler.nop),
    ("Running", "halted", Handler.stop),
    ("Running", "paused", Handler.suspend),
    ("Halted", "running", Handler.start),
    ("Paused", "running", Handler.resume),
    ("Running", "destroy", Handler.destroy),
    ("Halted", "destroy", Handler.destroy),
    ("Paused", "destroy", Handler.destroy) ]

/-- Modelled from the spec: the `(observed, requested)` pairs marked
*undefined* in the documented transition table. -/
def specUndefinedCells : List (String × String) :=
  [ ("Undefined", "halted"),
    ("Undefined", "paused"),
    ("Undefined", "destroy"),
    ("Halted", "paused"),
    ("Paused", "halted") ]

/-! ### Concrete fixtures for witnesses and counterexamples -/

def diskGB : VG.DiskImage := ⟨"disk0", "GB", 25, true⟩

def diskTB : VG.DiskImage := ⟨"disk1", "TB", 2, false⟩

def diskSWAP : VG.DiskImage := ⟨"SWAP disk", "GB", 2, false⟩

def diskODD : VG.DiskImage := ⟨"disk2", "blocks", 9, false⟩

def vdi0 : Nat → VG.DiskImage := fun n =>
  if n = 0 then diskGB else if n = 1 then diskTB
  else if n = 2 then diskSWAP else diskODD

/-- A minimal raw vguest record: required identity fields only, every
optional sub-structure empty or absent. -/
def rawVG0 : VG.RawVG :=
  { id := 10, fullyQualifiedDomainName := "host.domain.com",
    hostname := "host", domain := "domain.com", datacenterName := "par01",
    maxCpu := 1, maxMemory := 1024, powerStateName := "Running",
    statusName := "Active", osReferenceCode := "UBUNTU_14_64",
    dedicatedAccountHostOnlyFlag := false, hourlyBillingFlag := true,
    privateNetworkOnlyFlag := true, tagNames := [],
    primaryBackendIpAddress := none, primaryIpAddress := none,
    blockDevices := [], networkVlans := [], networkComponents := [],
    userData := [], postInstallScriptUri := none }

/-- A second raw vguest record with a distinct display name. -/
def rawVG2 : VG.RawVG :=
  { rawVG0 with
    id := 11, fullyQualifiedDomainName := "host2.domain.com",
    hostname := "host2" }

def vgRunning : VG.RawList :=
  { id := 7, fullyQualifiedDomainName := "host.domain.com",
    datacenterName := "par01", powerStateName := "Running",
    statusName := "Active", primaryBackendIpAddress := none,
    primaryIpAddress := none }

/-- Base vguest environment: empty list query, no facts matches. -/
def envV0 : VG.Env :=
  { listRaw := [], factsIds := [], detail := fun _ => rawVG0, vdi := vdi0,
    flavor := [("datacenter", FactVal.str "par01"),
               ("os_code", FactVal.str "UBUNTU_14_64")],
    hourly := true, monthly := false, cancelOk := true, sshkey := [99] }

/-- Vguest environment observing one `Running` resource. -/
def envV1 : VG.Env := { envV0 with listRaw := [vgRunning] }

/-- Vguest environment whose facts query resolves two records to the same
display name. -/
def envVdup : VG.Env := { envV0 with factsIds := [0, 1] }

/-- Vguest environment whose facts query resolves two records to distinct
display names. -/
def envVdistinct : VG.Env :=
  { envV0 with
    factsIds := [0, 1],
    detail := fun n => if n = 0 then rawVG0 else rawVG2 }

/-- A minimal raw hardware record: required identity fields only, every
optional sub-structure empty or absent. -/
def rawHW0 : HW.RawHW :=
  { id := 20, fullyQualifiedDomainName := "host.domain.com",
    hostname := "host", domain := "domain.com", datacenterName := "par01",
    processorPhysicalCoreAmount := 4, memoryCapacity := 8,
    osReferenceCode := "UBUNTU_14_64", hourlyBillingFlag := true,
    privateNetworkOnlyFlag := true, tagNames := [],
    primaryBackendIpAddress := none, primaryIpAddress := none,
    networkManagementIpAddress := none, networkVlans := [],
    networkComponents := [], userData := [], postInstallScriptUri := none }

def hwRunning : HW.RawList :=
  { id := 8, fullyQualifiedDomainName := "host.domain.com",
    datacenterName := "par01", hardwareStatusId := 5,
    primaryBackendIpAddress := none, primaryIpAddress := none,
    activeTransaction := none }

/-- Hardware flavor with the three renamed keys present and no `tags` key
(the e2e spec scenario's shape plus the `private` flag the code reads). -/
def flavorHW : List (String × FactVal) :=
  [("hourly", FactVal.bool true), ("private", FactVal.bool true),
   ("datacenter", FactVal.str "par01"),
   ("size", FactVal.str "S1270_8GB_2X1TBSATA_NORAID"),
   ("os_code", FactVal.str "UBUNTU_14_64")]

/-- Base hardware environment: empty list query, no facts matches. -/
def envH0 : HW.Env :=
  { listRaw := [], factsIds := [], detail := fun _ => rawHW0,
    flavor := flavorHW, hourly := true, monthly := false,
    cancelOk := true, sshkey := [99] }

/-- Hardware environment observing one resource. -/
def envH1 : HW.Env := { envH0 with listRaw := [hwRunning] }

/-- A raw vguest record with a GB disk, a TB disk, a SWAP disk and a disk in
an unrecognized unit. -/
def rawVGdisks : VG.RawVG := { rawVG0 with blockDevices := [0, 1, 2, 3] }

/-- A second raw hardware record with a distinct display name. -/
def rawHW2 : HW.RawHW :=
  { rawHW0 with
    id := 21, fullyQualifiedDomainName := "host2.domain.com",
    hostname := "host2" }

/-- Hardware environment whose facts query resolves two records to the same
display name. -/
def envHdup : HW.Env := { envH0 with factsIds := [0, 1] }

/-- Hardware environment whose facts query resolves two records to distinct
display names. -/
def envHdistinct : HW.Env :=
  { envH0 with
    factsIds := [0, 1],
    detail := fun n => if n = 0 then rawHW0 else rawHW2 }

/-! ### Dictionary lemmas -/

theorem lookupKey_dictSet_self {α : Type} (d : List (String × α)) (k : String) (v : α) :
    lookupKey (dictSet d k v) k = some v := by
  induction d with
  | nil => simp [dictSet, lookupKey]
  | cons p rest ih =>
    obtain ⟨k', v'⟩ := p
    by_cases h : k = k' <;> simp [dictSet, lookupKey, h, ih]

theorem lookupKey_dictSet_ne {α : Type} (d : List (String × α)) (k : String) (v : α)
    (k' : String) (h : k' ≠ k) : lookupKey (dictSet d k v) k' = lookupKey d k' := by
  induction d with
  | nil => simp [dictSet, lookupKey, h]
  | cons p rest ih =>
    obtain ⟨a, b⟩ := p
    by_cases hk : k = a
    · subst hk
      simp [dictSet, lookupKey, h]
    · by_cases hk' : k' = a <;> simp [dictSet, lookupKey, hk, hk', ih]

theorem lookupKey_dictDel_ne {α : Type} (d : List (String × α)) (k : String)
    (k' : String) (h : k' ≠ k) : lookupKey (dictDel d k) k' = lookupKey d k' := by
  induction d with
  | nil => simp [dictDel]
  | cons p rest ih =>
    obtain ⟨a, b⟩ := p
    by_cases hk : k = a
    · subst hk
      simp [dictDel, lookupKey, fun hh : k' = k => h hh]
    · by_cases hk' : k' = a <;> simp [dictDel, lookupKey, hk, hk', ih]

theorem lookupKey_eq_none_of_not_mem {α : Type} (d : List (String × α)) (k : String)
    (h : k ∉ d.map Prod.fst) : lookupKey d k = none := by
  induction d with
  | nil => simp [lookupKey]
  | cons p rest ih =>
    obtain ⟨a, b⟩ := p
    simp only [List.map_cons, List.mem_cons] at h
    push_neg at h
    simp [lookupKey, h.1, ih h.2]

theorem keys_dictSet {α : Type} (d : List (String × α)) (k : String) (v : α) :
    (dictSet d k v).map Prod.fst =
      if k ∈ d.map Prod.fst then d.map Prod.fst else d.map Prod.fst ++ [k] := by
  induction d with
  | nil => simp [dictSet]
  | cons p rest ih =>
    obtain ⟨a, b⟩ := p
    by_cases hk : k = a
    · subst hk
      simp [dictSet]
    · simp only [dictSet, if_neg hk, List.map_cons, ih, List.mem_cons]
      by_cases hm : k ∈ rest.map Prod.fst <;>
        simp [hm, hk, List.cons_append]

theorem keys_dictSet_nodup {α : Type} (d : List (String × α)) (k : String) (v : α)
    (h : (d.map Prod.fst).Nodup) : ((dictSet d k v).map Prod.fst).Nodup := by
  rw [keys_dictSet]
  by_cases hm : k ∈ d.map Prod.fst
  · simpa [hm] using h
  · rw [if_neg hm]
    refine List.Nodup.append h (List.nodup_singleton k) ?_
    rw [List.disjoint_singleton]
    exact hm

theorem keys_dictDel_sub {α : Type} (d : List (String × α)) (k : String) :
    ∀ x, x ∈ (dictDel d k).map Prod.fst → x ∈ d.map Prod.fst := by
  induction d with
  | nil => simp [dictDel]
  | cons p rest ih =>
    obtain ⟨a, b⟩ := p
    intro x hx
    by_cases hk : k = a
    · rw [show dictDel ((a, b) :: rest) k = rest by simp [dictDel, hk]] at hx
      simp only [List.map_cons, List.mem_cons]
      exact Or.inr hx
    · rw [show dictDel ((a, b) :: rest) k = (a, b) :: dictDel rest k by
        simp [dictDel, hk]] at hx
      simp only [List.map_cons, List.mem_cons] at hx ⊢
      rcases hx with hx | hx
      · exact Or.inl hx
      · exact Or.inr (ih x hx)

theorem keys_dictDel_nodup {α : Type} (d : List (String × α)) (k : String)
    (h : (d.map Prod.fst).Nodup) : ((dictDel d k).map Prod.fst).Nodup := by
  induction d with
  | nil => simp [dictDel]
  | cons p rest ih =>
    obtain ⟨a, b⟩ := p
    simp only [List.map_cons, List.nodup_cons] at h
    by_cases hk : k = a
    · subst hk
      simpa [dictDel] using h.2
    · simp only [dictDel, if_neg hk, List.map_cons, List.nodup_cons]
      exact ⟨fun hm => h.1 (keys_dictDel_sub rest k a hm), ih h.2⟩

theorem lookupKey_dictDel_self {α : Type} (d : List (String × α)) (k : String)
    (h : (d.map Prod.fst).Nodup) : lookupKey (dictDel d k) k = none := by
  induction d with
  | nil => simp [dictDel, lookupKey]
  | cons p rest ih =>
    obtain ⟨a, b⟩ := p
    simp only [List.map_cons, List.nodup_cons] at h
    by_cases hk : k = a
    · subst hk
      simp only [dictDel, if_pos rfl]
      exact lookupKey_eq_none_of_not_mem rest k h.1
    · simp [dictDel, lookupKey, hk, ih h.2]

/-! ### Dispatch-loop lemmas -/

theorem VG_runItems_single_trace (env : VG.Env) (req : String) (it : DispatchItem)
    (res : VG.Results) (h : Handler) (hl : tableLookup it.state req = .ok h) :
    (VG.runItems env req [it] res).2.2 = [h] := by
  simp only [VG.runItems, hl]
  rcases hr : VG.runHandler env h it.name it.id res with ⟨r, cs⟩
  cases r <;> simp [VG.runItems]

theorem HW_runItems_single_trace (env : HW.Env) (req : String) (it : DispatchItem)
    (res : HW.Results) (h : Handler) (hl : tableLookup it.state req = .ok h) :
    (HW.runItems env req [it] res).2.2 = [h] := by
  simp only [HW.runItems, hl]
  rcases hr : HW.runHandler env h it.name it.id res with ⟨r, cs⟩
  cases r <;> simp [HW.runItems]

theorem VG_runItems_err (env : VG.Env) (req : String) (it : DispatchItem)
    (rest : List DispatchItem) (res : VG.Results) (f : Failure)
    (hl : tableLookup it.state req = .error f) :
    VG.runItems env req (it :: rest) res = (.error f, [], []) := by
  simp [VG.runItems, hl]

theorem HW_runItems_err (env : HW.Env) (req : String) (it : DispatchItem)
    (rest : List DispatchItem) (res : HW.Results) (f : Failure)
    (hl : tableLookup it.state req = .error f) :
    HW.runItems env req (it :: rest) res = (.error f, [], []) := by
  simp [HW.runItems, hl]

theorem VG_reconcile_single_eq (env : VG.Env) (req : String) (name : Option String)
    (raw : VG.RawList) (hnr : lookupKey noneRow req = none)
    (hl : env.listRaw = [raw]) :
    VG.reconcile env req name =
      (let out := VG.runItems env req
        [⟨raw.powerStateName, some raw.fullyQualifiedDomainName, raw.id⟩]
        (VG.initResults req);
       (out.1, .query :: out.2.1, out.2.2)) := by
  simp [VG.reconcile, hnr, VG.stateQuery, hl, VG.get_instance, VG.toDispatch,
    dispatchItems]

theorem HW_reconcile_single_eq (env : HW.Env) (req : String) (name : Option String)
    (raw : HW.RawList) (hnr : lookupKey noneRow req = none)
    (hl : env.listRaw = [raw]) :
    HW.reconcile env req name =
      (let out := HW.runItems env req
        [⟨"Running", some raw.fullyQualifiedDomainName, raw.id⟩]
        (HW.initResults req);
       (out.1, .query :: out.2.1, out.2.2)) := by
  simp [HW.reconcile, hnr, HW.stateQuery, hl, HW.get_instance, HW.toDispatch,
    dispatchItems]

theorem VG_reconcile_empty_eq (env : VG.Env) (req : String) (name : Option String)
    (hnr : lookupKey noneRow req = none) (hl : env.listRaw = []) :
    VG.reconcile env req name =
      (let out := VG.runItems env req [⟨"Undefined", name, 0⟩] (VG.initResults req);
       (out.1, .query :: out.2.1, out.2.2)) := by
  simp [VG.reconcile, hnr, VG.stateQuery, hl, dispatchItems]

theorem HW_reconcile_empty_eq (env : HW.Env) (req : String) (name : Option String)
    (hnr : lookupKey noneRow req = none) (hl : env.listRaw = []) :
    HW.reconcile env req name =
      (let out := HW.runItems env req [⟨"Undefined", name, 0⟩] (HW.initResults req);
       (out.1, .query :: out.2.1, out.2.2)) := by
  simp [HW.reconcile, hnr, HW.stateQuery, hl, dispatchItems]

theorem VG_reconcile_single_trace (env : VG.Env) (req : String) (name : Option String)
    (raw : VG.RawList) (h : Handler) (hnr : lookupKey noneRow req = none)
    (hl : env.listRaw = [raw]) (hcell : tableLookup raw.powerStateName req = .ok h) :
    (VG.reconcile env req name).2.2 = [h] := by
  rw [VG_reconcile_single_eq env req name raw hnr hl]
  exact VG_runItems_single_trace _ _ _ _ _ hcell

theorem HW_reconcile_single_trace (env : HW.Env) (req : String) (name : Option String)
    (raw : HW.RawList) (h : Handler) (hnr : lookupKey noneRow req = none)
    (hl : env.listRaw = [raw]) (hcell : tableLookup "Running" req = .ok h) :
    (HW.reconcile env req name).2.2 = [h] := by
  rw [HW_reconcile_single_eq env req name raw hnr hl]
  exact HW_runItems_single_trace _ _ _ _ _ hcell

theorem VG_reconcile_empty_trace (env : VG.Env) (req : String) (name : Option String)
    (h : Handler) (hnr : lookupKey noneRow req = none) (hl : env.listRaw = [])
    (hcell : tableLookup "Undefined" req = .ok h) :
    (VG.reconcile env req name).2.2 = [h] := by
  rw [VG_reconcile_empty_eq env req name hnr hl]
  exact VG_runItems_single_trace _ _ _ _ _ hcell

theorem HW_reconcile_empty_trace (env : HW.Env) (req : String) (name : Option String)
    (h : Handler) (hnr : lookupKey noneRow req = none) (hl : env.listRaw = [])
    (hcell : tableLookup "Undefined" req = .ok h) :
    (HW.reconcile env req name).2.2 = [h] := by
  rw [HW_reconcile_empty_eq env req name hnr hl]
  exact HW_runItems_single_trace _ _ _ _ _ hcell

theorem VG_reconcile_single_err (env : VG.Env) (req : String) (name : Option String)
    (raw : VG.RawList) (f : Failure) (hnr : lookupKey noneRow req = none)
    (hl : env.listRaw = [raw]) (hcell : tableLookup raw.powerStateName req = .error f) :
    VG.reconcile env req name = (.error f, [.query], []) := by
  rw [VG_reconcile_single_eq env req name raw hnr hl]
  rw [VG_runItems_err env req _ [] (VG.initResults req) f hcell]

theorem VG_reconcile_empty_err (env : VG.Env) (req : String) (name : Option String)
    (f : Failure) (hnr : lookupKey noneRow req = none) (hl : env.listRaw = [])
    (hcell : tableLookup "Undefined" req = .error f) :
    VG.reconcile env req name = (.error f, [.query], []) := by
  rw [VG_reconcile_empty_eq env req name hnr hl]
  rw [VG_runItems_err env req _ [] (VG.initResults req) f hcell]

theorem HW_reconcile_empty_err (env : HW.Env) (req : String) (name : Option String)
    (f : Failure) (hnr : lookupKey noneRow req = none) (hl : env.listRaw = [])
    (hcell : tableLookup "Undefined" req = .error f) :
    HW.reconcile env req name = (.error f, [.query], []) := by
  rw [HW_reconcile_empty_eq env req name hnr hl]
  rw [HW_runItems_err env req _ [] (HW.initResults req) f hcell]

/-! ### Claim C1 -/

/-- C1: for every observed state `s` and requested state `r` whose pair has a
defined cell of the transition table, a reconciliation pass observing a
resource in state `s` under request `r` invokes exactly the documented
handler for that cell and no other: the dispatch loop of either module fires
exactly that handler on a single observed item; a vguest pass observing one
resource in a real (non-synthetic) state routes through it; and a pass of
either module observing no resource (synthetic `Undefined`) routes a
`running` request to `create`. -/
theorem c1_defined_cells_route_to_documented_handler :
    (∀ s r h, (s, r, h) ∈ specDefinedCells →
      ∀ (envV : VG.Env) (envH : HW.Env) (nm : Option String) (id : Nat),
        (VG.runItems envV r [⟨s, nm, id⟩] (VG.initResults r)).2.2 = [h] ∧
        (HW.runItems envH r [⟨s, nm, id⟩] (HW.initResults r)).2.2 = [h]) ∧
    (∀ (env : VG.Env) (name : Option String) (raw : VG.RawList) s r h,
      (s, r, h) ∈ specDefinedCells → s ≠ "Undefined" →
      env.listRaw = [raw] → raw.powerStateName = s →
      (VG.reconcile env r name).2.2 = [h]) ∧
    (∀ (env : VG.Env) (name : Option String), env.listRaw = [] →
      (VG.reconcile env "running" name).2.2 = [Handler.create]) ∧
    (∀ (env : HW.Env) (name : Option String), env.listRaw = [] →
      (HW.reconcile env "running" name).2.2 = [Handler.create]) := by
  refine ⟨?_, ?_, ?_, ?_⟩
  · intro s r h hmem envV envH nm id
    fin_cases hmem <;>
      exact ⟨VG_runItems_single_trace _ _ _ _ _ rfl,
             HW_runItems_single_trace _ _ _ _ _ rfl⟩
  · intro env name raw s r h hmem hs hl hps
    fin_cases hmem <;> first
      | exact absurd rfl hs
      | exact VG_reconcile_single_trace env _ name raw _ rfl hl (by rw [hps]; rfl)
  · intro env name hl
    exact VG_reconcile_empty_trace env "running" name Handler.create rfl hl rfl
  · intro env name hl
    exact HW_reconcile_empty_trace env "running" name Handler.create rfl hl rfl

/-- Witness for C1 at concrete inputs: the dispatch loop routes
`Running`+`halted` to `stop`; a vguest pass observing one `Running` resource
under `destroy` fires `destroy`; a hardware pass observing nothing under
`running` fires `create`. -/
theorem c1_witness :
    (VG.runItems envV0 "halted" [⟨"Running", some "host.domain.com", 7⟩]
      (VG.initResults "halted")).2.2 = [Handler.stop] ∧
    (VG.reconcile envV1 "destroy" none).2.2 = [Handler.destroy] ∧
    (HW.reconcile envH0 "running" (some "host.domain.com")).2.2 = [Handler.create] := by
  refine ⟨?_, ?_, ?_⟩
  · exact (c1_defined_cells_route_to_documented_handler.1 "Running" "halted"
      Handler.stop (by decide) envV0 envH0 (some "host.domain.com") 7).1
  · exact c1_defined_cells_route_to_documented_handler.2.1 envV1 none vgRunning
      "Running" "destroy" Handler.destroy (by decide) (by decide) rfl rfl
  · exact c1_defined_cells_route_to_documented_handler.2.2.2 envH0
      (some "host.domain.com") rfl

/-! ### Claim C2 -/

/-- C2 (amended): for every `(s, r)` pair marked *undefined* in the
transition table, a reconciliation pass observing a resource in state `s`
under request `r` fails fatally with the key-lookup error whose payload is
the requested state (the raised `KeyError` names only the missing requested
key, not the observed state), invokes no handler, and performs no mutating
provider call — the only call issued is the initial read-only query. -/
theorem c2_undefined_cells_fail_without_mutation :
    (∀ s r, (s, r) ∈ specUndefinedCells →
      ∀ (envV : VG.Env) (envH : HW.Env) (nm : Option String) (id : Nat),
        VG.runItems envV r [⟨s, nm, id⟩] (VG.initResults r) =
          (.error (.keyError r), [], []) ∧
        HW.runItems envH r [⟨s, nm, id⟩] (HW.initResults r) =
          (.error (.keyError r), [], [])) ∧
    (∀ (env : VG.Env) (name : Option String) (raw : VG.RawList) s r,
      (s, r) ∈ specUndefinedCells → s ≠ "Undefined" →
      env.listRaw = [raw] → raw.powerStateName = s →
      VG.reconcile env r name = (.error (.keyError r), [.query], [])) ∧
    (∀ (envV : VG.Env) (envH : HW.Env) (name : Option String) r,
      r ∈ ["halted", "paused", "destroy"] →
      envV.listRaw = [] → envH.listRaw = [] →
      VG.reconcile envV r name = (.error (.keyError r), [.query], []) ∧
      HW.reconcile envH r name = (.error (.keyError r), [.query], [])) ∧
    (∀ s r, (s, r) ∈ specUndefinedCells →
      Failure.identifies (Failure.keyError r) r = true ∧
      Call.query.isMutating = false) := by
  refine ⟨?_, ?_, ?_, ?_⟩
  · intro s r hmem envV envH nm id
    fin_cases hmem <;>
      exact ⟨VG_runItems_err _ _ _ _ _ _ rfl, HW_runItems_err _ _ _ _ _ _ rfl⟩
  · intro env name raw s r hmem hs hl hps
    fin_cases hmem <;> first
      | exact absurd rfl hs
      | exact VG_reconcile_single_err env _ name raw _ rfl hl (by rw [hps]; rfl)
  · intro envV envH name r hmem hV hH
    fin_cases hmem <;>
      exact ⟨VG_reconcile_empty_err envV _ name _ rfl hV rfl,
             HW_reconcile_empty_err envH _ name _ rfl hH rfl⟩
  · intro s r hmem
    fin_cases hmem <;> exact ⟨by decide, rfl⟩

/-- Counterexample for C2 as stated: at observed `Undefined` and requested
`halted` the pass fails with `KeyError 'halted'`, whose payload does not
identify the observed state `Undefined` — the claim's requirement that the
error identify *both* states fails. -/
theorem c2_counterexample :
    VG.reconcile envV0 "halted" (some "host.domain.com") =
      (.error (.keyError "halted"), [.query], []) ∧
    Failure.identifies (Failure.keyError "halted") "Undefined" = false := by
  exact ⟨VG_reconcile_empty_err envV0 "halted" (some "host.domain.com")
    (Failure.keyError "halted") rfl rfl rfl, by decide⟩

/-- Witness for C2 at concrete inputs. -/
theorem c2_witness :
    VG.runItems envV0 "paused" [⟨"Halted", none, 3⟩] (VG.initResults "paused") =
      (.error (.keyError "paused"), [], []) ∧
    HW.reconcile envH0 "destroy" none = (.error (.keyError "destroy"), [.query], []) := by
  exact ⟨(c2_undefined_cells_fail_without_mutation.1 "Halted" "paused"
      (by decide) envV0 envH0 none 3).1,
    (c2_undefined_cells_fail_without_mutation.2.2.1 envV0 envH0 none "destroy"
      (by decide) rfl rfl).2⟩

/-! ### Claim C6 -/

/-- C6: for every state-changing request whose resource query returns zero
matches, the driver synthesizes exactly one placeholder with state
`Undefined`, the requested name, and id `0`, and dispatches that single
placeholder through the transition table — so a `running` request routes to
`create`. -/
theorem c6_zero_matches_synthesize_undefined_placeholder :
    (∀ (items : List DispatchItem) (name : Option String),
      items = [] → dispatchItems items name = [⟨"Undefined", name, 0⟩]) ∧
    (∀ (env : VG.Env) (name : Option String) r,
      r ∈ ["running", "halted", "paused", "destroy"] → env.listRaw = [] →
      VG.reconcile env r name =
        (let out := VG.runItems env r [⟨"Undefined", name, 0⟩] (VG.initResults r);
         (out.1, .query :: out.2.1, out.2.2))) ∧
    (∀ (env : HW.Env) (name : Option String) r,
      r ∈ ["running", "halted", "paused", "destroy"] → env.listRaw = [] →
      HW.reconcile env r name =
        (let out := HW.runItems env r [⟨"Undefined", name, 0⟩] (HW.initResults r);
         (out.1, .query :: out.2.1, out.2.2))) ∧
    (∀ (env : VG.Env) (name : Option String), env.listRaw = [] →
      (VG.reconcile env "running" name).2.2 = [Handler.create]) ∧
    (∀ (env : HW.Env) (name : Option String), env.listRaw = [] →
      (HW.reconcile env "running" name).2.2 = [Handler.create]) := by
  refine ⟨?_, ?_, ?_, ?_, ?_⟩
  · intro items name hi
    subst hi
    rfl
  · intro env name r hmem hl
    fin_cases hmem <;> exact VG_reconcile_empty_eq env _ name rfl hl
  · intro env name r hmem hl
    fin_cases hmem <;> exact HW_reconcile_empty_eq env _ name rfl hl
  · intro env name hl
    exact VG_reconcile_empty_trace env "running" name Handler.create rfl hl rfl
  · intro env name hl
    exact HW_reconcile_empty_trace env "running" name Handler.create rfl hl rfl

/-- Witness for C6 at concrete inputs. -/
theorem c6_witness :
    dispatchItems [] (some "host.domain.com") =
      [⟨"Undefined", some "host.domain.com", 0⟩] ∧
    (VG.reconcile envV0 "running" (some "host.domain.com")).2.2 = [Handler.create] ∧
    HW.reconcile envH0 "destroy" none =
      (let out := HW.runItems envH0 "destroy" [⟨"Undefined", none, 0⟩]
        (HW.initResults "destroy");
       (out.1, .query :: out.2.1, out.2.2)) := by
  exact ⟨c6_zero_matches_synthesize_undefined_placeholder.1 [] (some "host.domain.com") rfl,
    c6_zero_matches_synthesize_undefined_placeholder.2.2.2.1 envV0 (some "host.domain.com") rfl,
    c6_zero_matches_synthesize_undefined_placeholder.2.2.1 envH0 none "destroy" (by decide) rfl⟩

/-! ### Claim C3 -/

/-- C3: the handlers `start`, `stop`, `suspend` and `resume` of both modules
are exactly the no-op handler: each re-queries and appends the current
observed instances to the accumulator, issues no power-control or mutating
provider call (the only call is the read-only query), and never changes the
`changed` flag. -/
theorem c3_power_handlers_degrade_to_nop :
    VG.start = VG.nop ∧ VG.stop = VG.nop ∧ VG.suspend = VG.nop ∧
    VG.resume = VG.nop ∧
    HW.start = HW.nop ∧ HW.stop = HW.nop ∧ HW.suspend = HW.nop ∧
    HW.resume = HW.nop ∧
    (∀ (env : VG.Env) (name : Option String) (id : Nat) (res : VG.Results)
        (l : List VG.Entry), res.instances = some l →
      VG.nop env name id res =
        (.ok { res with
               instances := some (l ++ (VG.stateQuery env).map VG.Entry.summary) },
         [Call.query]) ∧
      (VG.nop env name id res).2.filter Call.isMutating = []) ∧
    (∀ (env : HW.Env) (name : Option String) (id : Nat) (res : HW.Results)
        (l : List HW.Entry), res.instances = some l →
      HW.nop env name id res =
        (.ok { res with
               instances := some (l ++ (HW.stateQuery env).map HW.Entry.summary) },
         [Call.query]) ∧
      (HW.nop env name id res).2.filter Call.isMutating = []) := by
  refine ⟨rfl, rfl, rfl, rfl, rfl, rfl, rfl, rfl, ?_, ?_⟩
  · intro env name id res l h
    refine ⟨by simp [VG.nop, h], ?_⟩
    simp [VG.nop, h, List.filter, Call.isMutating]
  · intro env name id res l h
    refine ⟨by simp [HW.nop, h], ?_⟩
    simp [HW.nop, h, List.filter, Call.isMutating]

/-- Witness for C3 at concrete inputs. -/
theorem c3_witness :
    VG.start = VG.nop ∧
    VG.nop envV1 none 0 (VG.initResults "running") =
      (.ok { VG.initResults "running" with
             instances := some ([] ++ (VG.stateQuery envV1).map VG.Entry.summary) },
       [Call.query]) ∧
    HW.nop envH1 none 0 (HW.initResults "running") =
      (.ok { HW.initResults "running" with
             instances := some ([] ++ (HW.stateQuery envH1).map HW.Entry.summary) },
       [Call.query]) := by
  obtain ⟨h1, _, _, _, _, _, _, _, h9, h10⟩ := c3_power_handlers_degrade_to_nop
  exact ⟨h1, (h9 envV1 none 0 _ [] rfl).1, (h10 envH1 none 0 _ [] rfl).1⟩

/-! ### Fold lemmas for the fact projectors -/

theorem vlanFold_nil (acc : List (String × FactVal)) : vlanFold [] acc = acc := rfl

theorem vlanFold_cons (v : Vlan) (rest : List Vlan) (acc : List (String × FactVal)) :
    vlanFold (v :: rest) acc =
      vlanFold rest
        (let acc' :=
          if v.networkSpace = "PRIVATE" then
            dictSet acc "private_vlan" (.nat v.vlanNumber)
          else acc
         if v.networkSpace = "PUBLIC" then
           dictSet acc' "public_vlan" (.nat v.vlanNumber)
         else acc') := rfl

theorem lookupKey_vlanFold_ne (vl : List Vlan) (acc : List (String × FactVal))
    (k : String) (h1 : k ≠ "private_vlan") (h2 : k ≠ "public_vlan") :
    lookupKey (vlanFold vl acc) k = lookupKey acc k := by
  induction vl generalizing acc with
  | nil => rfl
  | cons v rest ih =>
    rw [vlanFold_cons, ih]
    by_cases hp : v.networkSpace = "PRIVATE" <;>
      by_cases hq : v.networkSpace = "PUBLIC" <;>
        simp [hp, hq, lookupKey_dictSet_ne _ _ _ _ h1,
          lookupKey_dictSet_ne _ _ _ _ h2]

theorem HW_nicFold_cons (c : HW.NetComp) (rest : List HW.NetComp)
    (acc : Nat × List (String × FactVal)) :
    HW.nicFold (c :: rest) acc =
      HW.nicFold rest
        (if c.primarySubnet then
          (let nic :=
            if strContains c.status "ACTIVE" then
              if acc.1 < c.maxSpeed then c.maxSpeed else acc.1
            else acc.1
           (nic, dictSet acc.2 "nic_speed" (.nat nic)))
         else acc) := rfl

theorem lookupKey_HW_nicFold_ne (comps : List HW.NetComp)
    (acc : Nat × List (String × FactVal)) (k : String) (h : k ≠ "nic_speed") :
    lookupKey (HW.nicFold comps acc).2 k = lookupKey acc.2 k := by
  induction comps generalizing acc with
  | nil => rfl
  | cons c rest ih =>
    rw [HW_nicFold_cons, ih]
    by_cases hs : c.primarySubnet <;>
      simp [hs, lookupKey_dictSet_ne _ _ _ _ h]

/-! ### Claim C8 -/

/-- C8: in the vguest fact extractor's disk loop, every block device
contributes its raw capacity scaled by its unit suffix — a `GB`-unit entry
contributes the capacity unchanged (so capacity 25 yields 25), a `TB`-unit
entry contributes capacity × 1000 (so capacity 2 yields 2000) — and every
entry whose disk name contains `SWAP` contributes nothing; the resulting
`disks` value is what `get_fact` stores under the `disks` key. -/
theorem c8_disk_unit_scaling_and_swap_exclusion :
    (∀ (vdi : Nat → VG.DiskImage) (bds : List Nat) (bid : Nat),
      (strContains (vdi bid).name "SWAP" = true →
        (VG.diskLoop vdi (bds ++ [bid])).1 = (VG.diskLoop vdi bds).1) ∧
      (strContains (vdi bid).name "SWAP" = false →
        strContains (vdi bid).units "GB" = true →
        (VG.diskLoop vdi (bds ++ [bid])).1 =
          (VG.diskLoop vdi bds).1 ++ [(vdi bid).capacity]) ∧
      (strContains (vdi bid).name "SWAP" = false →
        strContains (vdi bid).units "GB" = false →
        strContains (vdi bid).units "TB" = true →
        (VG.diskLoop vdi (bds ++ [bid])).1 =
          (VG.diskLoop vdi bds).1 ++ [(vdi bid).capacity * 1000])) ∧
    (∀ (vdi : Nat → VG.DiskImage) (inst : VG.RawVG),
      inst.blockDevices ≠ [] →
      lookupKey (VG.get_fact vdi inst) "disks" =
        some (FactVal.ints (VG.diskLoop vdi inst.blockDevices).1)) := by
  constructor
  · intro vdi bds bid
    have hstep : VG.diskLoop vdi (bds ++ [bid]) =
        VG.diskStep vdi (VG.diskLoop vdi bds) bid := by
      simp [VG.diskLoop, List.foldl_append]
    refine ⟨fun hsw => ?_, fun hsw hgb => ?_, fun hsw hgb htb => ?_⟩
    · rw [hstep]; simp [VG.diskStep, hsw]
    · rw [hstep]; simp [VG.diskStep, hsw, hgb]
    · rw [hstep]; simp [VG.diskStep, hsw, hgb, htb]
  · intro vdi inst hbd
    have hbd' : inst.blockDevices.isEmpty = false := by
      cases h : inst.blockDevices with
      | nil => exact absurd h hbd
      | cons d ds => rfl
    rcases hpb : inst.primaryBackendIpAddress with _ | a <;>
      rcases hpi : inst.primaryIpAddress with _ | b <;>
        rcases hud : inst.userData with _ | ⟨u, us⟩ <;>
          rcases hpu : inst.postInstallScriptUri with _ | uri <;>
            by_cases hnc : inst.networkComponents.isEmpty <;>
              simp [VG.get_fact, hbd', hpb, hpi, hud, hpu, hnc,
                lookupKey_vlanFold_ne, lookupKey_dictSet_ne,
                lookupKey_dictSet_self]

/-- Witness for C8 at concrete inputs: a GB disk of capacity 25 yields 25, a
TB disk of capacity 2 yields 2000, a SWAP-named disk is excluded, and
`get_fact` stores the accumulated list under `disks`. -/
theorem c8_witness :
    (VG.diskLoop vdi0 ([] ++ [0])).1 = (VG.diskLoop vdi0 []).1 ++ [(vdi0 0).capacity] ∧
    (VG.diskLoop vdi0 ([0] ++ [1])).1 = (VG.diskLoop vdi0 [0]).1 ++ [(vdi0 1).capacity * 1000] ∧
    (VG.diskLoop vdi0 ([0, 1] ++ [2])).1 = (VG.diskLoop vdi0 [0, 1]).1 ∧
    lookupKey (VG.get_fact vdi0 rawVGdisks) "disks" =
      some (FactVal.ints (VG.diskLoop vdi0 rawVGdisks.blockDevices).1) := by
  refine ⟨?_, ?_, ?_, ?_⟩
  · exact (c8_disk_unit_scaling_and_swap_exclusion.1 vdi0 [] 0).2.1 (by decide) (by decide)
  · exact (c8_disk_unit_scaling_and_swap_exclusion.1 vdi0 [0] 1).2.2 (by decide) (by decide) (by decide)
  · exact (c8_disk_unit_scaling_and_swap_exclusion.1 vdi0 [0, 1] 2).1 (by decide)
  · exact c8_disk_unit_scaling_and_swap_exclusion.2 vdi0 rawVGdisks (by decide)

/-! ### Claim C10 -/

/-- C10: a block device whose unit string contains neither `GB` nor `TB`
(and whose name does not contain `SWAP`) has its capacity multiplied by 0:
the loop appends 0 to the disks list, so the entry is neither excluded nor
an error — it silently becomes a zero-sized disk. -/
theorem c10_unknown_unit_contributes_zero :
    ∀ (vdi : Nat → VG.DiskImage) (bds : List Nat) (bid : Nat),
      strContains (vdi bid).name "SWAP" = false →
      strContains (vdi bid).units "GB" = false →
      strContains (vdi bid).units "TB" = false →
      (VG.diskLoop vdi (bds ++ [bid])).1 =
        (VG.diskLoop vdi bds).1 ++ [(vdi bid).capacity * 0] ∧
      (VG.diskLoop vdi (bds ++ [bid])).1 = (VG.diskLoop vdi bds).1 ++ [0] := by
  intro vdi bds bid hsw hgb htb
  have hstep : VG.diskLoop vdi (bds ++ [bid]) =
      VG.diskStep vdi (VG.diskLoop vdi bds) bid := by
    simp [VG.diskLoop, List.foldl_append]
  constructor
  · rw [hstep]; simp [VG.diskStep, hsw, hgb, htb]
  · rw [hstep]; simp [VG.diskStep, hsw, hgb, htb]

/-- Witness for C10 at a concrete input: the `blocks`-unit disk of capacity
9 contributes 0 and is not excluded. -/
theorem c10_witness :
    (VG.diskLoop vdi0 ([0] ++ [3])).1 = (VG.diskLoop vdi0 [0]).1 ++ [0] := by
  exact (c10_unknown_unit_contributes_zero vdi0 [0] 3 (by decide) (by decide)
    (by decide)).2

/-! ### Claim C7 -/

/-- C7 (amended): for a raw record with only the required identity fields
and empty/absent optional sub-structures, the *vguest* fact extractor omits
every optional key (`address`, `privateAddress`, `publicAddress`, `disks`,
`local_disk`, vlan numbers, `nic_speed`, `userData`, `post_uri`); the
*hardware* fact extractor omits its optional keys (`managementAddress`,
`privateAddress`, `publicAddress`, vlan numbers, `nic_speed`, `userData`,
`post_uri`) but always emits `address`, defaulting it to the literal
`"undefined"` rather than omitting it (and it emits no disk keys at all). -/
theorem c7_minimal_record_omits_optional_keys :
    (∀ (vdi : Nat → VG.DiskImage) (inst : VG.RawVG),
      inst.primaryBackendIpAddress = none → inst.primaryIpAddress = none →
      inst.blockDevices = [] → inst.networkVlans = [] →
      inst.networkComponents = [] → inst.userData = [] →
      inst.postInstallScriptUri = none →
      (hasKey (VG.get_fact vdi inst) "address" = false ∧
       hasKey (VG.get_fact vdi inst) "privateAddress" = false ∧
       hasKey (VG.get_fact vdi inst) "publicAddress" = false ∧
       hasKey (VG.get_fact vdi inst) "disks" = false ∧
       hasKey (VG.get_fact vdi inst) "local_disk" = false ∧
       hasKey (VG.get_fact vdi inst) "private_vlan" = false ∧
       hasKey (VG.get_fact vdi inst) "public_vlan" = false ∧
       hasKey (VG.get_fact vdi inst) "nic_speed" = false ∧
       hasKey (VG.get_fact vdi inst) "userData" = false ∧
       hasKey (VG.get_fact vdi inst) "post_uri" = false)) ∧
    (∀ (inst : HW.RawHW),
      inst.primaryBackendIpAddress = none → inst.primaryIpAddress = none →
      inst.networkManagementIpAddress = none → inst.networkVlans = [] →
      inst.networkComponents = [] → inst.userData = [] →
      inst.postInstallScriptUri = none →
      (hasKey (HW.get_fact inst) "managementAddress" = false ∧
       hasKey (HW.get_fact inst) "privateAddress" = false ∧
       hasKey (HW.get_fact inst) "publicAddress" = false ∧
       hasKey (HW.get_fact inst) "private_vlan" = false ∧
       hasKey (HW.get_fact inst) "public_vlan" = false ∧
       hasKey (HW.get_fact inst) "nic_speed" = false ∧
       hasKey (HW.get_fact inst) "userData" = false ∧
       hasKey (HW.get_fact inst) "post_uri" = false ∧
       hasKey (HW.get_fact inst) "disks" = false ∧
       hasKey (HW.get_fact inst) "local_disk" = false ∧
       hasKey (HW.get_fact inst) "address" = true ∧
       lookupKey (HW.get_fact inst) "address" = some (FactVal.str "undefined"))) := by
  constructor
  · intro vdi inst hpb hpi hbd hvl hnc hud hpu
    refine ⟨?_, ?_, ?_, ?_, ?_, ?_, ?_, ?_, ?_, ?_⟩ <;>
      simp [VG.get_fact, hpb, hpi, hbd, hvl, hnc, hud, hpu, vlanFold,
        hasKey, lookupKey]
  · intro inst hpb hpi hnm hvl hnc hud hpu
    refine ⟨?_, ?_, ?_, ?_, ?_, ?_, ?_, ?_, ?_, ?_, ?_, ?_⟩ <;>
      simp [HW.get_fact, hpb, hpi, hnm, hvl, hnc, hud, hpu, vlanFold,
        hasKey, lookupKey]

/-- Counterexample for C7 as stated: the hardware fact extractor applied to
a minimal raw record emits the optional `address` key anyway, bound to the
literal `"undefined"`. -/
theorem c7_counterexample :
    hasKey (HW.get_fact rawHW0) "address" = true ∧
    lookupKey (HW.get_fact rawHW0) "address" = some (FactVal.str "undefined") := by
  exact ⟨rfl, rfl⟩

/-- Witness for C7 at concrete minimal records. -/
theorem c7_witness :
    hasKey (VG.get_fact vdi0 rawVG0) "address" = false ∧
    hasKey (VG.get_fact vdi0 rawVG0) "post_uri" = false ∧
    hasKey (HW.get_fact rawHW0) "userData" = false := by
  refine ⟨?_, ?_, ?_⟩
  · exact (c7_minimal_record_omits_optional_keys.1 vdi0 rawVG0
      rfl rfl rfl rfl rfl rfl rfl).1
  · exact (c7_minimal_record_omits_optional_keys.1 vdi0 rawVG0
      rfl rfl rfl rfl rfl rfl rfl).2.2.2.2.2.2.2.2.2
  · exact (c7_minimal_record_omits_optional_keys.2 rawHW0
      rfl rfl rfl rfl rfl rfl rfl).2.2.2.2.2.2.1

/-! ### Facts-assembly lemmas -/

theorem anyKey_eq_true {α : Type} (acc : List (FactVal × α)) (n : FactVal) :
    acc.any (fun p => decide (p.1 = n)) = true ↔ n ∈ acc.map Prod.fst := by
  simp [List.any_eq_true, List.mem_map]

theorem VG_get_fact_name (vdi : Nat → VG.DiskImage) (inst : VG.RawVG) :
    lookupKey (VG.get_fact vdi inst) "name" =
      some (.str inst.fullyQualifiedDomainName) := by
  rcases hpb : inst.primaryBackendIpAddress with _ | a <;>
    rcases hpi : inst.primaryIpAddress with _ | b <;>
      rcases hud : inst.userData with _ | ⟨u, us⟩ <;>
        rcases hpu : inst.postInstallScriptUri with _ | uri <;>
          by_cases hbd : inst.blockDevices.isEmpty <;>
            by_cases hnc : inst.networkComponents.isEmpty <;>
              simp [VG.get_fact, hpb, hpi, hud, hpu, hbd, hnc,
                lookupKey_vlanFold_ne, lookupKey_dictSet_ne, lookupKey]

theorem HW_get_fact_name (inst : HW.RawHW) :
    lookupKey (HW.get_fact inst) "name" =
      some (.str inst.fullyQualifiedDomainName) := by
  rcases hpb : inst.primaryBackendIpAddress with _ | a <;>
    rcases hpi : inst.primaryIpAddress with _ | b <;>
      rcases hnm : inst.networkManagementIpAddress with _ | m <;>
        rcases hud : inst.userData with _ | ⟨u, us⟩ <;>
          rcases hpu : inst.postInstallScriptUri with _ | uri <;>
            by_cases hnc : inst.networkComponents.isEmpty <;>
              simp [HW.get_fact, hpb, hpi, hnm, hud, hpu, hnc,
                lookupKey_vlanFold_ne, lookupKey_HW_nicFold_ne,
                lookupKey_dictSet_ne, lookupKey]

theorem VG_buildFacts_spec (ps : List (FactVal × List (String × FactVal)))
    (h : ∀ p ∈ ps, lookupKey p.2 "name" = some p.1) :
    ∀ acc : List (FactVal × List (String × FactVal)),
      (acc.map Prod.fst).Nodup →
      ((acc.map Prod.fst ++ ps.map Prod.fst).Nodup →
        VG.buildFacts (ps.map Prod.snd) acc = .ok (acc ++ ps)) ∧
      (¬ (acc.map Prod.fst ++ ps.map Prod.fst).Nodup →
        VG.buildFacts (ps.map Prod.snd) acc =
          .error (.failJson "duplicated vguests name")) := by
  induction ps with
  | nil =>
    intro acc hacc
    refine ⟨fun _ => by simp [VG.buildFacts], fun hnd => ?_⟩
    exact absurd (by simpa using hacc) hnd
  | cons p rest ih =>
    intro acc hacc
    have hname : lookupKey p.2 "name" = some p.1 := h p (List.mem_cons_self p rest)
    have hrest : ∀ q ∈ rest, lookupKey q.2 "name" = some q.1 :=
      fun q hq => h q (List.mem_cons_of_mem p hq)
    by_cases hmem : p.1 ∈ acc.map Prod.fst
    · have hany : acc.any (fun q => decide (q.1 = p.1)) = true :=
        (anyKey_eq_true acc p.1).mpr hmem
      refine ⟨fun hnd => ?_, fun _ => ?_⟩
      · exfalso
        rw [List.nodup_append] at hnd
        exact hnd.2.2 hmem (by simp)
      · simp [VG.buildFacts, hname, hany]
    · have hany : acc.any (fun q => decide (q.1 = p.1)) = false := by
        rw [Bool.eq_false_iff]
        intro hc
        exact hmem ((anyKey_eq_true acc p.1).mp hc)
      have hacc' : ((acc ++ [p]).map Prod.fst).Nodup := by
        rw [List.map_append]
        refine List.Nodup.append hacc (by simp) ?_
        intro x hx hy
        simp at hy
        subst hy
        exact hmem hx
      have hperm : acc.map Prod.fst ++ (p :: rest).map Prod.fst =
          (acc ++ [p]).map Prod.fst ++ rest.map Prod.fst := by
        simp only [List.map_cons, List.map_append, List.map_nil,
          List.append_assoc, List.singleton_append]
      have hstep : VG.buildFacts ((p :: rest).map Prod.snd) acc =
          VG.buildFacts (rest.map Prod.snd) (acc ++ [p]) := by
        simp [VG.buildFacts, hname, hany]
      refine ⟨fun hnd => ?_, fun hnd => ?_⟩
      · rw [hstep, (ih hrest (acc ++ [p]) hacc').1 (by rw [← hperm]; exact hnd)]
        simp
      · rw [hstep, (ih hrest (acc ++ [p]) hacc').2 (by rw [← hperm]; exact hnd)]

theorem HW_buildFacts_spec (ps : List (FactVal × List (String × FactVal)))
    (h : ∀ p ∈ ps, lookupKey p.2 "name" = some p.1) :
    ∀ acc : List (FactVal × List (String × FactVal)),
      (acc.map Prod.fst).Nodup →
      ((acc.map Prod.fst ++ ps.map Prod.fst).Nodup →
        HW.buildFacts (ps.map Prod.snd) acc = .ok (acc ++ ps)) ∧
      (¬ (acc.map Prod.fst ++ ps.map Prod.fst).Nodup →
        HW.buildFacts (ps.map Prod.snd) acc =
          .error (.failJson "duplicated vHardware name")) := by
  induction ps with
  | nil =>
    intro acc hacc
    refine ⟨fun _ => by simp [HW.buildFacts], fun hnd => ?_⟩
    exact absurd (by simpa using hacc) hnd
  | cons p rest ih =>
    intro acc hacc
    have hname : lookupKey p.2 "name" = some p.1 := h p (List.mem_cons_self p rest)
    have hrest : ∀ q ∈ rest, lookupKey q.2 "name" = some q.1 :=
      fun q hq => h q (List.mem_cons_of_mem p hq)
    by_cases hmem : p.1 ∈ acc.map Prod.fst
    · have hany : acc.any (fun q => decide (q.1 = p.1)) = true :=
        (anyKey_eq_true acc p.1).mpr hmem
      refine ⟨fun hnd => ?_, fun _ => ?_⟩
      · exfalso
        rw [List.nodup_append] at hnd
        exact hnd.2.2 hmem (by simp)
      · simp [HW.buildFacts, hname, hany]
    · have hany : acc.any (fun q => decide (q.1 = p.1)) = false := by
        rw [Bool.eq_false_iff]
        intro hc
        exact hmem ((anyKey_eq_true acc p.1).mp hc)
      have hacc' : ((acc ++ [p]).map Prod.fst).Nodup := by
        rw [List.map_append]
        refine List.Nodup.append hacc (by simp) ?_
        intro x hx hy
        simp at hy
        subst hy
        exact hmem hx
      have hperm : acc.map Prod.fst ++ (p :: rest).map Prod.fst =
          (acc ++ [p]).map Prod.fst ++ rest.map Prod.fst := by
        simp only [List.map_cons, List.map_append, List.map_nil,
          List.append_assoc, List.singleton_append]
      have hstep : HW.buildFacts ((p :: rest).map Prod.snd) acc =
          HW.buildFacts (rest.map Prod.snd) (acc ++ [p]) := by
        simp [HW.buildFacts, hname, hany]
      refine ⟨fun hnd => ?_, fun hnd => ?_⟩
      · rw [hstep, (ih hrest (acc ++ [p]) hacc').1 (by rw [← hperm]; exact hnd)]
        simp
      · rw [hstep, (ih hrest (acc ++ [p]) hacc').2 (by rw [← hperm]; exact hnd)]

/-! ### Claim C5 -/

/-- C5: in the `facts` operation of either module, if two fetched records
resolve to the same display name the operation fails with the fatal
duplicate-name `fail_json` (and returns no partial name-to-fact mapping —
the failure carries no result at all); if all resolved names are distinct it
produces the one-to-one association list mapping each resolved name to its
fact record. -/
theorem c5_duplicate_fact_names_are_fatal :
    (∀ (env : VG.Env) (name : Option String) (id : Nat) (res : VG.Results)
        (l : List VG.Entry), res.instances = some l → env.factsIds ≠ [] →
      (((env.factsIds.map
            (fun i => FactVal.str (env.detail i).fullyQualifiedDomainName)).Nodup →
        VG.facts env name id res =
          (.ok { res with
                 instances := none,
                 ansible_facts := some (env.factsIds.map (fun i =>
                   (FactVal.str (env.detail i).fullyQualifiedDomainName,
                    VG.get_fact env.vdi (env.detail i)))) },
           .query :: env.factsIds.map (fun i => Call.getDetail i))) ∧
       (¬ (env.factsIds.map
            (fun i => FactVal.str (env.detail i).fullyQualifiedDomainName)).Nodup →
        VG.facts env name id res =
          (.error (.failJson "duplicated vguests name"),
           .query :: env.factsIds.map (fun i => Call.getDetail i))))) ∧
    (∀ (env : HW.Env) (name : Option String) (id : Nat) (res : HW.Results)
        (l : List HW.Entry), res.instances = some l → env.factsIds ≠ [] →
      (((env.factsIds.map
            (fun i => FactVal.str (env.detail i).fullyQualifiedDomainName)).Nodup →
        HW.facts env name id res =
          (.ok { res with
                 instances := none,
                 ansible_facts := some (env.factsIds.map (fun i =>
                   (FactVal.str (env.detail i).fullyQualifiedDomainName,
                    HW.get_fact (env.detail i)))) },
           .query :: env.factsIds.map (fun i => Call.getDetail i))) ∧
       (¬ (env.factsIds.map
            (fun i => FactVal.str (env.detail i).fullyQualifiedDomainName)).Nodup →
        HW.facts env name id res =
          (.error (.failJson "duplicated vHardware name"),
           .query :: env.factsIds.map (fun i => Call.getDetail i))))) := by
  constructor
  · intro env name id res l hres hne
    have hfs : (env.factsIds.map
        (fun i => VG.get_fact env.vdi (env.detail i))).isEmpty = false := by
      cases h : env.factsIds with
      | nil => exact absurd h hne
      | cons a b => rfl
    set ps := env.factsIds.map (fun i =>
      (FactVal.str (env.detail i).fullyQualifiedDomainName,
       VG.get_fact env.vdi (env.detail i))) with hps_def
    have hps : ∀ p ∈ ps, lookupKey p.2 "name" = some p.1 := by
      intro p hp
      rw [hps_def] at hp
      simp only [List.mem_map] at hp
      obtain ⟨i, _, rfl⟩ := hp
      exact VG_get_fact_name env.vdi (env.detail i)
    have hsnd : ps.map Prod.snd = env.factsIds.map
        (fun i => VG.get_fact env.vdi (env.detail i)) := by
      rw [hps_def]
      simp [List.map_map, Function.comp]
    have hfst : ps.map Prod.fst = env.factsIds.map
        (fun i => FactVal.str (env.detail i).fullyQualifiedDomainName) := by
      rw [hps_def]
      simp [List.map_map, Function.comp]
    have hspec := VG_buildFacts_spec ps hps [] (by simp)
    constructor
    · intro hnd
      have hok := hspec.1 (by simpa [hfst] using hnd)
      rw [hsnd] at hok
      simp [VG.facts, hres, hfs, hok]
    · intro hnd
      have herr := hspec.2 (by simpa [hfst] using hnd)
      rw [hsnd] at herr
      simp [VG.facts, hres, hfs, herr]
  · intro env name id res l hres hne
    have hfs : (env.factsIds.map
        (fun i => HW.get_fact (env.detail i))).isEmpty = false := by
      cases h : env.factsIds with
      | nil => exact absurd h hne
      | cons a b => rfl
    set ps := env.factsIds.map (fun i =>
      (FactVal.str (env.detail i).fullyQualifiedDomainName,
       HW.get_fact (env.detail i))) with hps_def
    have hps : ∀ p ∈ ps, lookupKey p.2 "name" = some p.1 := by
      intro p hp
      rw [hps_def] at hp
      simp only [List.mem_map] at hp
      obtain ⟨i, _, rfl⟩ := hp
      exact HW_get_fact_name (env.detail i)
    have hsnd : ps.map Prod.snd = env.factsIds.map
        (fun i => HW.get_fact (env.detail i)) := by
      rw [hps_def]
      simp [List.map_map, Function.comp]
    have hfst : ps.map Prod.fst = env.factsIds.map
        (fun i => FactVal.str (env.detail i).fullyQualifiedDomainName) := by
      rw [hps_def]
      simp [List.map_map, Function.comp]
    have hspec := HW_buildFacts_spec ps hps [] (by simp)
    constructor
    · intro hnd
      have hok := hspec.1 (by simpa [hfst] using hnd)
      rw [hsnd] at hok
      simp [HW.facts, hres, hfs, hok]
    · intro hnd
      have herr := hspec.2 (by simpa [hfst] using hnd)
      rw [hsnd] at herr
      simp [HW.facts, hres, hfs, herr]

/-- Witness for C5 at concrete inputs: two records resolving to the same
name make `facts` fail with the duplicate-name error; two records with
distinct names yield the one-to-one mapping. -/
theorem c5_witness :
    VG.facts envVdup none 0 (VG.initResults "facts") =
      (.error (.failJson "duplicated vguests name"),
       .query :: envVdup.factsIds.map (fun i => Call.getDetail i)) ∧
    HW.facts envHdistinct none 0 (HW.initResults "facts") =
      (.ok { HW.initResults "facts" with
             instances := none,
             ansible_facts := some (envHdistinct.factsIds.map (fun i =>
               (FactVal.str (envHdistinct.detail i).fullyQualifiedDomainName,
                HW.get_fact (envHdistinct.detail i)))) },
       .query :: envHdistinct.factsIds.map (fun i => Call.getDetail i)) := by
  constructor
  · exact (c5_duplicate_fact_names_are_fatal.1 envVdup none 0 _ [] rfl
      (by decide)).2 (by decide)
  · exact (c5_duplicate_fact_names_are_fatal.2 envHdistinct none 0 _ [] rfl
      (by decide)).1 (by decide)


/-! ### Result-shape lemmas -/

theorem lookupKey_mem {α : Type} (d : List (String × α)) (k : String) (v : α)
    (h : lookupKey d k = some v) : (k, v) ∈ d := by
  induction d with
  | nil => simp [lookupKey] at h
  | cons p rest ih =>
    obtain ⟨a, b⟩ := p
    by_cases hk : k = a
    · subst hk
      rw [show lookupKey ((k, b) :: rest) k = some b by simp [lookupKey]] at h
      injection h with h
      subst h
      exact List.mem_cons_self _ _
    · simp only [lookupKey, if_neg hk] at h
      exact List.mem_cons_of_mem _ (ih h)

theorem tableLookup_stateChanging (s r : String) (h : Handler)
    (hr : r ∈ ["running", "halted", "paused", "destroy"])
    (hl : tableLookup s r = .ok h) :
    h ≠ Handler.list ∧ h ≠ Handler.info ∧ h ≠ Handler.facts := by
  rcases hrow : lookupKey FINITE_STATE s with _ | row
  · simp [tableLookup, hrow] at hl
  · rcases hcell : lookupKey row r with _ | h'
    · simp [tableLookup, hrow, hcell] at hl
    · simp only [tableLookup, hrow, hcell, Except.ok.injEq] at hl
      subst hl
      have hrowmem := lookupKey_mem FINITE_STATE s row hrow
      have hcellmem := lookupKey_mem row r h' hcell
      simp only [FINITE_STATE, List.mem_cons, List.not_mem_nil, or_false,
        Prod.mk.injEq] at hrowmem
      rcases hrowmem with ⟨hs, hrw⟩ | ⟨hs, hrw⟩ | ⟨hs, hrw⟩ | ⟨hs, hrw⟩ | ⟨hs, hrw⟩ <;>
        subst hrw <;>
          refine ⟨?_, ?_, ?_⟩ <;> rintro rfl <;> fin_cases hr <;>
            simp [noneRow] at hcellmem

theorem VG_runHandler_preserves (env : VG.Env) (h : Handler) (name : Option String)
    (id : Nat) (res res' : VG.Results) (cs : List Call)
    (hh1 : h ≠ Handler.list) (hh2 : h ≠ Handler.info) (hh3 : h ≠ Handler.facts)
    (hfacts : res.ansible_facts = none)
    (hrun : VG.runHandler env h name id res = (.ok res', cs)) :
    res'.instances.isSome = true ∧ res'.ansible_facts = none := by
  cases h
  case list => exact absurd rfl hh1
  case info => exact absurd rfl hh2
  case facts => exact absurd rfl hh3
  all_goals
    simp only [VG.runHandler, VG.create, VG.destroy, VG.start, VG.stop,
      VG.suspend, VG.resume, VG.nop] at hrun
  all_goals repeat' split at hrun
  all_goals injection hrun with he hc
  all_goals first
    | (injection he with he2
       subst he2
       constructor
       · simp
       · simp [hfacts])
    | injection he

theorem HW_runHandler_preserves (env : HW.Env) (h : Handler) (name : Option String)
    (id : Nat) (res res' : HW.Results) (cs : List Call)
    (hh1 : h ≠ Handler.list) (hh2 : h ≠ Handler.info) (hh3 : h ≠ Handler.facts)
    (hfacts : res.ansible_facts = none)
    (hrun : HW.runHandler env h name id res = (.ok res', cs)) :
    res'.instances.isSome = true ∧ res'.ansible_facts = none := by
  cases h
  case list => exact absurd rfl hh1
  case info => exact absurd rfl hh2
  case facts => exact absurd rfl hh3
  all_goals
    simp only [HW.runHandler, HW.create, HW.destroy, HW.start, HW.stop,
      HW.suspend, HW.resume, HW.nop] at hrun
  all_goals repeat' split at hrun
  all_goals injection hrun with he hc
  all_goals first
    | (injection he with he2
       subst he2
       constructor
       · simp
       · simp [hfacts])
    | injection he

theorem VG_runItems_preserves (env : VG.Env) (req : String)
    (hreq : req ∈ ["running", "halted", "paused", "destroy"]) :
    ∀ (items : List DispatchItem) (res res' : VG.Results),
      res.ansible_facts = none →
      (VG.runItems env req items res).1 = .ok res' →
      res.instances.isSome = true →
      res'.instances.isSome = true ∧ res'.ansible_facts = none := by
  intro items
  induction items with
  | nil =>
    intro res res' hf hrun hi
    simp only [VG.runItems] at hrun
    injection hrun with h
    subst h
    exact ⟨hi, hf⟩
  | cons it rest ih =>
    intro res res' hf hrun hi
    rcases htl : tableLookup it.state req with f | h
    · simp [VG.runItems, htl] at hrun
    · simp only [VG.runItems, htl] at hrun
      rcases hrh : VG.runHandler env h it.name it.id res with ⟨r, cs⟩
      rcases r with f | res₁
      · simp [hrh] at hrun
      · simp only [hrh] at hrun
        have hnro := tableLookup_stateChanging it.state req h hreq htl
        have hpres := VG_runHandler_preserves env h it.name it.id res res₁ cs
          hnro.1 hnro.2.1 hnro.2.2 hf hrh
        exact ih res₁ res' hpres.2 hrun hpres.1

theorem HW_runItems_preserves (env : HW.Env) (req : String)
    (hreq : req ∈ ["running", "halted", "paused", "destroy"]) :
    ∀ (items : List DispatchItem) (res res' : HW.Results),
      res.ansible_facts = none →
      (HW.runItems env req items res).1 = .ok res' →
      res.instances.isSome = true →
      res'.instances.isSome = true ∧ res'.ansible_facts = none := by
  intro items
  induction items with
  | nil =>
    intro res res' hf hrun hi
    simp only [HW.runItems] at hrun
    injection hrun with h
    subst h
    exact ⟨hi, hf⟩
  | cons it rest ih =>
    intro res res' hf hrun hi
    rcases htl : tableLookup it.state req with f | h
    · simp [HW.runItems, htl] at hrun
    · simp only [HW.runItems, htl] at hrun
      rcases hrh : HW.runHandler env h it.name it.id res with ⟨r, cs⟩
      rcases r with f | res₁
      · simp [hrh] at hrun
      · simp only [hrh] at hrun
        have hnro := tableLookup_stateChanging it.state req h hreq htl
        have hpres := HW_runHandler_preserves env h it.name it.id res res₁ cs
          hnro.1 hnro.2.1 hnro.2.2 hf hrh
        exact ih res₁ res' hpres.2 hrun hpres.1

theorem VG_reconcile_fst (env : VG.Env) (req : String) (name : Option String)
    (hnr : lookupKey noneRow req = none) :
    (VG.reconcile env req name).1 =
      (VG.runItems env req (dispatchItems ((VG.stateQuery env).map VG.toDispatch) name)
        (VG.initResults req)).1 := by
  simp [VG.reconcile, hnr]

theorem HW_reconcile_fst (env : HW.Env) (req : String) (name : Option String)
    (hnr : lookupKey noneRow req = none) :
    (HW.reconcile env req name).1 =
      (HW.runItems env req (dispatchItems ((HW.stateQuery env).map HW.toDispatch) name)
        (HW.initResults req)).1 := by
  simp [HW.reconcile, hnr]

theorem noneRow_none_of_stateChanging (r : String)
    (hr : r ∈ ["running", "halted", "paused", "destroy"]) :
    lookupKey noneRow r = none := by
  fin_cases hr <;> rfl

/-! ### Claim C9 -/

/-- C9 (amended): on a successful reconciliation pass of either module, a
state-changing or `list`/`info` request yields a result carrying the
`instances` key and no facts mapping, and a `facts` request whose query
matches at least one record yields a result carrying the facts mapping and
no `instances` key; but a `facts` request whose query matches zero records
yields a successful result carrying *neither* — only the not-found
message — so "exactly one of the two is populated" fails in that case. -/
theorem c9_result_population_by_request :
    (∀ (env : VG.Env) (name : Option String) (r : String) (res' : VG.Results),
      r ∈ ["running", "halted", "paused", "destroy"] →
      (VG.reconcile env r name).1 = .ok res' →
      res'.instances.isSome = true ∧ res'.ansible_facts = none) ∧
    (∀ (env : VG.Env) (name : Option String) (r : String) (res' : VG.Results),
      r ∈ ["list", "info"] →
      (VG.reconcile env r name).1 = .ok res' →
      res'.instances.isSome = true ∧ res'.ansible_facts = none) ∧
    (∀ (env : VG.Env) (name : Option String) (res' : VG.Results),
      env.factsIds ≠ [] →
      (VG.reconcile env "facts" name).1 = .ok res' →
      res'.instances = none ∧ res'.ansible_facts.isSome = true) ∧
    (∀ (env : VG.Env) (name : Option String) (res' : VG.Results),
      env.factsIds = [] →
      (VG.reconcile env "facts" name).1 = .ok res' →
      res'.instances = none ∧ res'.ansible_facts = none ∧
        res'.msg = some "vguest not found") ∧
    (∀ (env : HW.Env) (name : Option String) (r : String) (res' : HW.Results),
      r ∈ ["running", "halted", "paused", "destroy"] →
      (HW.reconcile env r name).1 = .ok res' →
      res'.instances.isSome = true ∧ res'.ansible_facts = none) ∧
    (∀ (env : HW.Env) (name : Option String) (r : String) (res' : HW.Results),
      r ∈ ["list", "info"] →
      (HW.reconcile env r name).1 = .ok res' →
      res'.instances.isSome = true ∧ res'.ansible_facts = none) ∧
    (∀ (env : HW.Env) (name : Option String) (res' : HW.Results),
      env.factsIds ≠ [] →
      (HW.reconcile env "facts" name).1 = .ok res' →
      res'.instances = none ∧ res'.ansible_facts.isSome = true) ∧
    (∀ (env : HW.Env) (name : Option String) (res' : HW.Results),
      env.factsIds = [] →
      (HW.reconcile env "facts" name).1 = .ok res' →
      res'.instances = none ∧ res'.ansible_facts = none ∧
        res'.msg = some "vHardware not found") := by
  refine ⟨?_, ?_, ?_, ?_, ?_, ?_, ?_, ?_⟩
  · intro env name r res' hr h1
    rw [VG_reconcile_fst env r name (noneRow_none_of_stateChanging r hr)] at h1
    exact VG_runItems_preserves env r hr _ _ res' rfl h1 rfl
  · intro env name r res' hr h1
    fin_cases hr
    · by_cases he : ((VG.stateQuery env).map VG.Entry.summary).isEmpty <;>
        · simp [VG.reconcile, VG.runHandler, VG.list, lookupKey, noneRow, he,
            VG.initResults] at h1
          subst h1
          simp
    · by_cases hd : (((VG.stateQuery env).map (fun it => env.detail it.id))).isEmpty <;>
        · simp [VG.reconcile, VG.runHandler, VG.info, lookupKey, noneRow, hd,
            VG.initResults] at h1
          subst h1
          simp
  · intro env name res' hne h1
    have hfs : (env.factsIds.map
        (fun i => VG.get_fact env.vdi (env.detail i))).isEmpty = false := by
      cases h : env.factsIds with
      | nil => exact absurd h hne
      | cons a b => rfl
    rcases hb : VG.buildFacts
        (env.factsIds.map fun i => VG.get_fact env.vdi (env.detail i)) [] with f | m <;>
      simp [VG.reconcile, VG.runHandler, VG.facts, lookupKey, noneRow, hfs, hb,
        VG.initResults] at h1
    subst h1
    simp
  · intro env name res' hids h1
    simp [VG.reconcile, VG.runHandler, VG.facts, lookupKey, noneRow, hids,
      VG.initResults] at h1
    subst h1
    simp
  · intro env name r res' hr h1
    rw [HW_reconcile_fst env r name (noneRow_none_of_stateChanging r hr)] at h1
    exact HW_runItems_preserves env r hr _ _ res' rfl h1 rfl
  · intro env name r res' hr h1
    fin_cases hr
    · by_cases he : ((HW.stateQuery env).map HW.Entry.summary).isEmpty <;>
        · simp [HW.reconcile, HW.runHandler, HW.list, lookupKey, noneRow, he,
            HW.initResults] at h1
          subst h1
          simp
    · by_cases hd : (((HW.stateQuery env).map (fun it => env.detail it.id))).isEmpty <;>
        · simp [HW.reconcile, HW.runHandler, HW.info, lookupKey, noneRow, hd,
            HW.initResults] at h1
          subst h1
          simp
  · intro env name res' hne h1
    have hfs : (env.factsIds.map
        (fun i => HW.get_fact (env.detail i))).isEmpty = false := by
      cases h : env.factsIds with
      | nil => exact absurd h hne
      | cons a b => rfl
    rcases hb : HW.buildFacts
        (env.factsIds.map fun i => HW.get_fact (env.detail i)) [] with f | m <;>
      simp [HW.reconcile, HW.runHandler, HW.facts, lookupKey, noneRow, hfs, hb,
        HW.initResults] at h1
    subst h1
    simp
  · intro env name res' hids h1
    simp [HW.reconcile, HW.runHandler, HW.facts, lookupKey, noneRow, hids,
      HW.initResults] at h1
    subst h1
    simp

/-- Counterexample for C9 as stated: a `facts` pass whose query matches zero
records succeeds with a result that carries *neither* the `instances` key
(it was deleted) nor any facts mapping — only the not-found message — so
exactly-one-populated fails. -/
theorem c9_counterexample :
    (VG.reconcile envV0 "facts" none).1 =
      .ok { changed := false, state := "facts", instances := none,
            ansible_facts := none, msg := some "vguest not found" } := rfl

/-- Witness for C9 at concrete inputs. -/
theorem c9_witness :
    (({ changed := false, state := "running",
        instances := some [VG.Entry.summary (VG.get_instance vgRunning)],
        ansible_facts := none, msg := none } : VG.Results).instances.isSome = true ∧
      ({ changed := false, state := "running",
         instances := some [VG.Entry.summary (VG.get_instance vgRunning)],
         ansible_facts := none, msg := none } : VG.Results).ansible_facts = none) ∧
    (({ changed := false, state := "facts", instances := none,
        ansible_facts := none,
        msg := some "vguest not found" } : VG.Results).instances = none ∧
      ({ changed := false, state := "facts", instances := none,
         ansible_facts := none,
         msg := some "vguest not found" } : VG.Results).ansible_facts = none ∧
      ({ changed := false, state := "facts", instances := none,
         ansible_facts := none,
         msg := some "vguest not found" } : VG.Results).msg =
        some "vguest not found") := by
  exact ⟨c9_result_population_by_request.1 envV1 none "running" _ (by decide) rfl,
         c9_result_population_by_request.2.2.2.1 envV0 none _ rfl rfl⟩

/-! ### Create-spec lemmas -/

theorem lookupKey_billingAdjust_ne (h m : Bool) (d : List (String × FactVal))
    (k : String) (hk : k ≠ "hourly") :
    lookupKey (billingAdjust h m d) k = lookupKey d k := by
  unfold billingAdjust
  by_cases hm : m = true <;> by_cases hh : h = true <;>
    simp [hm, hh, lookupKey_dictSet_ne _ _ _ _ hk]

theorem keys_billingAdjust_nodup (h m : Bool) (d : List (String × FactVal))
    (hn : (d.map Prod.fst).Nodup) :
    ((billingAdjust h m d).map Prod.fst).Nodup := by
  unfold billingAdjust
  by_cases hm : m = true <;> by_cases hh : h = true <;>
    simp only [hm, hh, if_true, if_false] <;>
      first
        | exact keys_dictSet_nodup _ _ _ (keys_dictSet_nodup _ _ _ hn)
        | exact keys_dictSet_nodup _ _ _ hn
        | exact hn

theorem VG_createSpec_lookup (env : VG.Env) (host dom : String) (k : String)
    (h1 : k ≠ "hourly") (h2 : k ≠ "hostname") (h3 : k ≠ "domain")
    (h4 : k ≠ "ssh_keys") :
    lookupKey (VG.createSpec env host dom) k = lookupKey env.flavor k := by
  unfold VG.createSpec
  rw [lookupKey_dictSet_ne _ _ _ _ h4, lookupKey_dictSet_ne _ _ _ _ h3,
    lookupKey_dictSet_ne _ _ _ _ h2, lookupKey_billingAdjust_ne _ _ _ _ h1]

theorem HW_createSpec_ok (env : HW.Env) (host dom : String)
    (osv dcv pv : FactVal)
    (hnodup : (env.flavor.map Prod.fst).Nodup)
    (htags : lookupKey env.flavor "tags" = none)
    (hos : lookupKey env.flavor "os_code" = some osv)
    (hdc : lookupKey env.flavor "datacenter" = some dcv)
    (hpv : lookupKey env.flavor "private" = some pv) :
    ∃ bms, HW.createSpec env host dom = .ok (bms, none) ∧
      lookupKey bms "os" = some osv ∧
      lookupKey bms "location" = some dcv ∧
      lookupKey bms "no_public" = some pv ∧
      lookupKey bms "os_code" = none ∧
      lookupKey bms "datacenter" = none ∧
      lookupKey bms "private" = none := by
  have htags0 : lookupKey (billingAdjust env.hourly env.monthly env.flavor) "tags" = none := by
    rw [lookupKey_billingAdjust_ne _ _ _ _ (by decide)]
    exact htags
  have hos3 : lookupKey
      (dictSet (dictSet (dictSet (billingAdjust env.hourly env.monthly env.flavor)
        "hostname" (.str host)) "domain" (.str dom)) "ssh_keys" (.nats env.sshkey))
      "os_code" = some osv := by
    rw [lookupKey_dictSet_ne _ _ _ _ (by decide),
      lookupKey_dictSet_ne _ _ _ _ (by decide),
      lookupKey_dictSet_ne _ _ _ _ (by decide),
      lookupKey_billingAdjust_ne _ _ _ _ (by decide)]
    exact hos
  have hdc4 : lookupKey
      (dictDel (dictSet (dictSet (dictSet (dictSet
        (billingAdjust env.hourly env.monthly env.flavor)
        "hostname" (.str host)) "domain" (.str dom)) "ssh_keys" (.nats env.sshkey))
        "os" osv) "os_code")
      "datacenter" = some dcv := by
    rw [lookupKey_dictDel_ne _ _ _ (by decide),
      lookupKey_dictSet_ne _ _ _ _ (by decide),
      lookupKey_dictSet_ne _ _ _ _ (by decide),
      lookupKey_dictSet_ne _ _ _ _ (by decide),
      lookupKey_dictSet_ne _ _ _ _ (by decide),
      lookupKey_billingAdjust_ne _ _ _ _ (by decide)]
    exact hdc
  have hpv5 : lookupKey
      (dictDel (dictSet (dictDel (dictSet (dictSet (dictSet (dictSet
        (billingAdjust env.hourly env.monthly env.flavor)
        "hostname" (.str host)) "domain" (.str dom)) "ssh_keys" (.nats env.sshkey))
        "os" osv) "os_code") "location" dcv) "datacenter")
      "private" = some pv := by
    rw [lookupKey_dictDel_ne _ _ _ (by decide),
      lookupKey_dictSet_ne _ _ _ _ (by decide),
      lookupKey_dictDel_ne _ _ _ (by decide),
      lookupKey_dictSet_ne _ _ _ _ (by decide),
      lookupKey_dictSet_ne _ _ _ _ (by decide),
      lookupKey_dictSet_ne _ _ _ _ (by decide),
      lookupKey_dictSet_ne _ _ _ _ (by decide),
      lookupKey_billingAdjust_ne _ _ _ _ (by decide)]
    exact hpv
  have hnd3 : ((dictSet (dictSet (dictSet
      (billingAdjust env.hourly env.monthly env.flavor)
      "hostname" (.str host)) "domain" (.str dom)) "ssh_keys"
      (.nats env.sshkey)).map Prod.fst).Nodup :=
    keys_dictSet_nodup _ _ _ (keys_dictSet_nodup _ _ _ (keys_dictSet_nodup _ _ _
      (keys_billingAdjust_nodup _ _ _ hnodup)))
  have hndOs : (((dictSet (dictSet (dictSet (dictSet
      (billingAdjust env.hourly env.monthly env.flavor)
      "hostname" (.str host)) "domain" (.str dom)) "ssh_keys" (.nats env.sshkey))
      "os" osv)).map Prod.fst).Nodup := keys_dictSet_nodup _ _ _ hnd3
  have hnd4 : ((dictDel (dictSet (dictSet (dictSet (dictSet
      (billingAdjust env.hourly env.monthly env.flavor)
      "hostname" (.str host)) "domain" (.str dom)) "ssh_keys" (.nats env.sshkey))
      "os" osv) "os_code").map Prod.fst).Nodup := keys_dictDel_nodup _ _ hndOs
  have hndLoc : ((dictSet (dictDel (dictSet (dictSet (dictSet (dictSet
      (billingAdjust env.hourly env.monthly env.flavor)
      "hostname" (.str host)) "domain" (.str dom)) "ssh_keys" (.nats env.sshkey))
      "os" osv) "os_code") "location" dcv).map Prod.fst).Nodup :=
    keys_dictSet_nodup _ _ _ hnd4
  have hnd5 : ((dictDel (dictSet (dictDel (dictSet (dictSet (dictSet (dictSet
      (billingAdjust env.hourly env.monthly env.flavor)
      "hostname" (.str host)) "domain" (.str dom)) "ssh_keys" (.nats env.sshkey))
      "os" osv) "os_code") "location" dcv) "datacenter").map Prod.fst).Nodup :=
    keys_dictDel_nodup _ _ hndLoc
  have hndNp : ((dictSet (dictDel (dictSet (dictDel (dictSet (dictSet (dictSet
      (dictSet (billingAdjust env.hourly env.monthly env.flavor)
      "hostname" (.str host)) "domain" (.str dom)) "ssh_keys" (.nats env.sshkey))
      "os" osv) "os_code") "location" dcv) "datacenter") "no_public" pv).map
      Prod.fst).Nodup := keys_dictSet_nodup _ _ _ hnd5
  refine ⟨dictDel (dictSet (dictDel (dictSet (dictDel (dictSet (dictSet (dictSet
    (dictSet (billingAdjust env.hourly env.monthly env.flavor)
    "hostname" (.str host)) "domain" (.str dom)) "ssh_keys" (.nats env.sshkey))
    "os" osv) "os_code") "location" dcv) "datacenter") "no_public" pv) "private",
    ?_, ?_, ?_, ?_, ?_, ?_, ?_⟩
  · simp only [HW.createSpec, htags0, Option.isSome_none, Bool.false_eq_true,
      if_false, hos3, hdc4, hpv5]
  · rw [lookupKey_dictDel_ne _ _ _ (by decide),
      lookupKey_dictSet_ne _ _ _ _ (by decide),
      lookupKey_dictDel_ne _ _ _ (by decide),
      lookupKey_dictSet_ne _ _ _ _ (by decide),
      lookupKey_dictDel_ne _ _ _ (by decide),
      lookupKey_dictSet_self]
  · rw [lookupKey_dictDel_ne _ _ _ (by decide),
      lookupKey_dictSet_ne _ _ _ _ (by decide),
      lookupKey_dictDel_ne _ _ _ (by decide),
      lookupKey_dictSet_self]
  · rw [lookupKey_dictDel_ne _ _ _ (by decide),
      lookupKey_dictSet_self]
  · rw [lookupKey_dictDel_ne _ _ _ (by decide),
      lookupKey_dictSet_ne _ _ _ _ (by decide),
      lookupKey_dictDel_ne _ _ _ (by decide),
      lookupKey_dictSet_ne _ _ _ _ (by decide)]
    exact lookupKey_dictDel_self _ _ hndOs
  · rw [lookupKey_dictDel_ne _ _ _ (by decide),
      lookupKey_dictSet_ne _ _ _ _ (by decide)]
    exact lookupKey_dictDel_self _ _ hndLoc
  · exact lookupKey_dictDel_self _ _ hndNp

/-! ### Claim C4 -/

/-- C4 (amended): only the *hardware* create handler performs the field-name
normalization.  Given a flavor with distinct keys containing `os_code`,
`datacenter` and `private` and no `tags` key, and a dotted name, the spec it
passes to both the verify and the commit call carries the renamed keys
`os`/`location`/`no_public` (with the original three keys removed), no
deferred tags, and the resulting pass sets `changed := true`.  The *vguest*
create handler performs no renaming: every flavor key other than the
`hourly`/`hostname`/`domain`/`ssh_keys` keys it writes itself reaches the
provider's create call unchanged. -/
theorem c4_create_field_normalization :
    (∀ (env : HW.Env) (n dom : String) (osv dcv pv : FactVal) (id : Nat)
        (res : HW.Results),
      (splitOnce n).2 = some dom →
      (env.flavor.map Prod.fst).Nodup →
      lookupKey env.flavor "tags" = none →
      lookupKey env.flavor "os_code" = some osv →
      lookupKey env.flavor "datacenter" = some dcv →
      lookupKey env.flavor "private" = some pv →
      ((HW.createSpec env (splitOnce n).1 dom).toOption.isSome = true ∧
       ∀ bms tags, HW.createSpec env (splitOnce n).1 dom = .ok (bms, tags) →
        tags = none ∧
        lookupKey bms "os" = some osv ∧
        lookupKey bms "location" = some dcv ∧
        lookupKey bms "no_public" = some pv ∧
        lookupKey bms "os_code" = none ∧
        lookupKey bms "datacenter" = none ∧
        lookupKey bms "private" = none ∧
        HW.create env (some n) id res =
          (.ok { res with
                 debug_bms := some bms, debug_inst := true,
                 changed := true,
                 instances := some ((HW.stateQuery env).map HW.Entry.summary) },
           [Call.verifyCreate bms, Call.commitCreate bms, Call.query]))) ∧
    (∀ (env : VG.Env) (n dom : String) (id : Nat) (res : VG.Results) (k : String),
      (splitOnce n).2 = some dom →
      k ≠ "hourly" → k ≠ "hostname" → k ≠ "domain" → k ≠ "ssh_keys" →
      (VG.create env (some n) id res =
        (.ok { res with
               changed := true,
               instances := some ((VG.stateQuery env).map VG.Entry.summary) },
         [Call.verifyCreate (VG.createSpec env (splitOnce n).1 dom),
          Call.commitCreate (VG.createSpec env (splitOnce n).1 dom),
          Call.waitReady, Call.query]) ∧
       lookupKey (VG.createSpec env (splitOnce n).1 dom) k =
         lookupKey env.flavor k)) := by
  constructor
  · intro env n dom osv dcv pv id res hsp hnodup htags hos hdc hpv
    obtain ⟨bms₀, heq, l1, l2, l3, l4, l5, l6⟩ :=
      HW_createSpec_ok env (splitOnce n).1 dom osv dcv pv hnodup htags hos hdc hpv
    constructor
    · rw [heq]
      rfl
    · intro bms tags h
      rw [heq] at h
      injection h with h
      injection h with h1 h2
      subst h1
      subst h2
      refine ⟨rfl, l1, l2, l3, l4, l5, l6, ?_⟩
      simp [HW.create, hsp, heq]
  · intro env n dom id res k hsp h1 h2 h3 h4
    refine ⟨?_, VG_createSpec_lookup env (splitOnce n).1 dom k h1 h2 h3 h4⟩
    simp [VG.create, hsp]

/-- Counterexample for C4 as stated: the vguest create handler does *not*
rename the user-facing spec fields — the spec it commits still carries the
`datacenter` and `os_code` keys and carries no `location` or `os` key. -/
theorem c4_counterexample :
    (VG.create envV0 (some "host.domain.com") 0 (VG.initResults "running")).2 =
      [Call.verifyCreate (VG.createSpec envV0 "host" "domain.com"),
       Call.commitCreate (VG.createSpec envV0 "host" "domain.com"),
       Call.waitReady, Call.query] ∧
    lookupKey (VG.createSpec envV0 "host" "domain.com") "datacenter" =
      some (FactVal.str "par01") ∧
    lookupKey (VG.createSpec envV0 "host" "domain.com") "os_code" =
      some (FactVal.str "UBUNTU_14_64") ∧
    lookupKey (VG.createSpec envV0 "host" "domain.com") "location" = none ∧
    lookupKey (VG.createSpec envV0 "host" "domain.com") "os" = none := by
  refine ⟨rfl, rfl, rfl, rfl, rfl⟩

/-- Witness for C4 at concrete inputs: the hardware flavor of the e2e
scenario (plus its `private` flag) is renamed before verify/commit and the
pass reports `changed = true`. -/
theorem c4_witness :
    ((HW.createSpec envH0 "host" "domain.com").toOption.isSome = true) ∧
    (∀ bms tags, HW.createSpec envH0 "host" "domain.com" = .ok (bms, tags) →
      tags = none ∧
      lookupKey bms "os" = some (FactVal.str "UBUNTU_14_64") ∧
      lookupKey bms "location" = some (FactVal.str "par01") ∧
      lookupKey bms "no_public" = some (FactVal.bool true) ∧
      lookupKey bms "os_code" = none ∧
      lookupKey bms "datacenter" = none ∧
      lookupKey bms "private" = none ∧
      HW.create envH0 (some "host.domain.com") 0 (HW.initResults "running") =
        (.ok { HW.initResults "running" with
               debug_bms := some bms, debug_inst := true, changed := true,
               instances := some ((HW.stateQuery envH0).map HW.Entry.summary) },
         [Call.verifyCreate bms, Call.commitCreate bms, Call.query])) ∧
    (lookupKey (VG.createSpec envV0 "host" "domain.com") "datacenter" =
      lookupKey envV0.flavor "datacenter") := by
  obtain ⟨w1, w2⟩ := c4_create_field_normalization.1 envH0 "host.domain.com"
    "domain.com" (FactVal.str "UBUNTU_14_64") (FactVal.str "par01")
    (FactVal.bool true) 0 (HW.initResults "running") rfl (by decide) rfl rfl rfl rfl
  exact ⟨w1, w2,
    (c4_create_field_normalization.2 envV0 "host.domain.com" "domain.com" 0
      (VG.initResults "running") "datacenter" rfl (by decide) (by decide)
      (by decide) (by decide)).2⟩
